import Mathlib

set_option linter.unusedVariables false

/-
Formal model of the dental-backend mesh preprocessing core
(`packages/common/dental_backend_common/preprocessing.py` and
`packages/common/dental_backend_common/geometry.py`).

Modelling conventions:
* Python floats are rationals (`ℚ`); `time.time()` is an explicit rational
  clock argument (`now`), frozen during a single call.
* The on-disk cache directory is a pair of partial maps `String → Option _`
  (one for `<key>.json` metadata files, one for `<key>.ply` mesh blobs).
* SHA-256 hashing in `get_cache_key` is modelled as the identity on the
  hashed content string (collisions of SHA-256 itself are out of scope).
* Optional third-party library behaviour (Open3D algorithms, trimesh
  attribute availability, `fix_normals`, watertightness, …) is a parameter
  bundle `GeoLib`; the trimesh fallback paths that only use elementary
  arithmetic are modelled concretely.
* `trimesh.Trimesh.submesh` with a face mask is modelled as face filtering.
* Exceptions are `Except`; exceptions that the source catches and logs are
  modelled by explicit failure flags.
-/

/-- A 3D point with rational coordinates. -/
abbrev Vec3 := ℚ × ℚ × ℚ

/-- Componentwise vector addition. -/
def vadd (a b : Vec3) : Vec3 := (a.1 + b.1, a.2.1 + b.2.1, a.2.2 + b.2.2)

/-- Componentwise vector negation. -/
def vneg (a : Vec3) : Vec3 := (-a.1, -a.2.1, -a.2.2)

/-- Scalar multiplication of a vector. -/
def vsmul (k : ℚ) (a : Vec3) : Vec3 := (k * a.1, k * a.2.1, k * a.2.2)

/-- Componentwise vector subtraction. -/
def vsub (a b : Vec3) : Vec3 := vadd a (vneg b)

/-- Cross product of two vectors. -/
def cross (a b : Vec3) : Vec3 :=
  (a.2.1 * b.2.2 - a.2.2 * b.2.1,
   a.2.2 * b.1 - a.1 * b.2.2,
   a.1 * b.2.1 - a.2.1 * b.1)

/-- Squared euclidean norm of a vector. -/
def normSq (a : Vec3) : ℚ := a.1 ^ 2 + a.2.1 ^ 2 + a.2.2 ^ 2

/-- A triangle mesh: vertex positions plus face index triples
(`trimesh.Trimesh(vertices=…, faces=…)`). -/
structure Mesh where
  vertices : List Vec3
  faces : List (ℕ × ℕ × ℕ)
deriving DecidableEq, Repr

/-- Pipeline steps (`PipelineStep` enum, preprocessing.py:32). -/
inductive PipelineStep
  | denoise | decimate | hole_fill | alignment | roi_crop | tooth_arch_isolation
deriving DecidableEq, Repr

/-- The string value of a `PipelineStep` member. -/
def PipelineStep.value : PipelineStep → String
  | .denoise => "denoise"
  | .decimate => "decimate"
  | .hole_fill => "hole_fill"
  | .alignment => "alignment"
  | .roi_crop => "roi_crop"
  | .tooth_arch_isolation => "tooth_arch_isolation"

/-- Algorithm identifiers (`AlgorithmType` enum, preprocessing.py:43). -/
inductive AlgorithmType
  | bilateral_filter | gaussian_filter | statistical_outlier_removal
  | voxel_down_sample | uniform_down_sample
  | poisson_reconstruction | ball_pivoting | alpha_shape
  | icp_alignment | landmark_alignment | feature_based_alignment
  | bounding_box_crop | spherical_crop | planar_crop
  | curvature_based_segmentation | clustering_segmentation
  | machine_learning_segmentation
deriving DecidableEq, Repr

/-- The string value of an `AlgorithmType` member (used when the config's
algorithm is interpolated into the cache-key content string). -/
def AlgorithmType.value : AlgorithmType → String
  | .bilateral_filter => "bilateral_filter"
  | .gaussian_filter => "gaussian_filter"
  | .statistical_outlier_removal => "statistical_outlier_removal"
  | .voxel_down_sample => "voxel_down_sample"
  | .uniform_down_sample => "uniform_down_sample"
  | .poisson_reconstruction => "poisson_reconstruction"
  | .ball_pivoting => "ball_pivoting"
  | .alpha_shape => "alpha_shape"
  | .icp_alignment => "icp_alignment"
  | .landmark_alignment => "landmark_alignment"
  | .feature_based_alignment => "feature_based_alignment"
  | .bounding_box_crop => "bounding_box_crop"
  | .spherical_crop => "spherical_crop"
  | .planar_crop => "planar_crop"
  | .curvature_based_segmentation => "curvature_based_segmentation"
  | .clustering_segmentation => "clustering_segmentation"
  | .machine_learning_segmentation => "machine_learning_segmentation"

/-- Step parameters: a JSON object of scalar values, modelled as an
association list with natural-number values (the only parameters the
modelled code paths read are non-negative integers). -/
abbrev Params := List (String × ℕ)

/-- Python `params.get(key, default)` on a dict modelled as an assoc list. -/
def paramGet (parameters : Params) (key : String) (dflt : ℕ) : ℕ :=
  match parameters.find? (fun p => p.1 = key) with
  | some p => p.2
  | none => dflt

/-- Insert a pair into a key-sorted assoc list (helper for `sortByKey`). -/
def insertByKey (p : String × ℕ) : Params → Params
  | [] => [p]
  | q :: t => if p.1 ≤ q.1 then p :: q :: t else q :: insertByKey p t

/-- Sort parameters by key, modelling `json.dumps(…, sort_keys=True)`. -/
def sortByKey : Params → Params
  | [] => []
  | p :: t => insertByKey p (sortByKey t)

/-- Render the sorted-key JSON form of a parameter mapping
(`json.dumps(self.config.parameters, sort_keys=True)`). -/
def renderParams (parameters : Params) : String :=
  "\x7b" ++ String.intercalate ", "
    ((sortByKey parameters).map (fun p => "\"" ++ p.1 ++ "\": " ++ toString p.2))
    ++ "\x7d"

/-- Per-step pipeline configuration (`PipelineStepConfig`, preprocessing.py:123).
Note that no validator ties `algorithm` to `step`. -/
structure PipelineStepConfig where
  step : PipelineStep
  algorithm : AlgorithmType
  enabled : Bool := true
  parameters : Params := []
  cache_enabled : Bool := true
deriving DecidableEq, Repr

/-- Whole-pipeline configuration (`PipelineConfig`, preprocessing.py:143). -/
structure PipelineConfig where
  name : String
  version : String := "1.0.0"
  description : String := ""
  steps : List PipelineStepConfig
  cache_enabled : Bool := true
  cache_ttl_hours : ℕ := 24
deriving DecidableEq, Repr

/-- Step metrics (`PipelineMetrics`, preprocessing.py:76). `processing_time`
and `memory_usage_mb` are 0 under the frozen-clock model. -/
structure PipelineMetrics where
  input_vertices : ℕ
  input_faces : ℕ
  output_vertices : ℕ
  output_faces : ℕ
  processing_time : ℚ := 0
  memory_usage_mb : ℚ := 0
  quality_score : Option ℚ := none
deriving DecidableEq, Repr

/-- Build the metrics record a processor returns for one input/output pair. -/
def mkMetrics (inp outp : Mesh) : PipelineMetrics :=
  { input_vertices := inp.vertices.length
    input_faces := inp.faces.length
    output_vertices := outp.vertices.length
    output_faces := outp.faces.length }

/-- Error taxonomy of spec §7, plus the uncaught standard Python exceptions
the source can raise. The `ValueError` raised for an unsupported algorithm
inside `DenoiseProcessor.process` / `DecimateProcessor.process` plays the
role of the spec's `UnsupportedAlgorithmError`; `attributeErr` models an
uncaught `AttributeError` (a trimesh `submesh` LIST used where a mesh object
is expected); `typeErr` models an uncaught `TypeError` (subscripting the
`None` that trimesh returns for the bounds of a face-less mesh). -/
inductive PErr
  | unsupportedAlgorithm (step : PipelineStep) (algo : AlgorithmType)
  | attributeErr
  | typeErr
deriving DecidableEq, Repr

/-- Bundle of third-party library behaviour the source dispatches to but the
repository does not implement: Open3D algorithm bodies, trimesh attribute
availability (`hasattr` probes) and trimesh operations whose geometry is not
re-implemented here. Each field is one foreign call site. -/
structure GeoLib where
  /-- Body of the Open3D denoise branch for a supported algorithm
  (`_bilateral_filter` / `_gaussian_filter` / `_statistical_outlier_removal`,
  composed with the trimesh/Open3D conversions). -/
  o3dDenoise : AlgorithmType → Params → Mesh → Mesh
  /-- Body of the Open3D decimate branch for a supported algorithm. -/
  o3dDecimate : AlgorithmType → Params → Mesh → Mesh
  /-- Effect of `mesh.fix_normals()` on the mesh value (in-place in Python). -/
  fixNormals : Mesh → Mesh
  /-- Whether `hasattr(mesh, "deduplicate_vertices")` holds. -/
  dedupAvailable : Bool
  /-- Effect of `mesh.deduplicate_vertices()` (returns a new mesh object). -/
  dedup : Mesh → Mesh
  /-- `mesh.is_watertight`. -/
  isWatertight : Mesh → Bool
  /-- Whether `hasattr(mesh, "is_manifold")` holds. -/
  hasManifoldAttr : Bool
  /-- `mesh.is_manifold`, when the attribute exists. -/
  isManifoldAttr : Mesh → Bool
  /-- Result of `MeshValidator._check_mesh_normals`. -/
  hasNormals : Mesh → Bool
  /-- `mesh.area`. -/
  area : Mesh → ℚ
  /-- `mesh.volume`. -/
  volume : Mesh → ℚ
  /-- `mesh.bounds` as (min corner, max corner), for a mesh that has faces.
  Trimesh returns `None` for the bounds of a face-less mesh; that case is
  handled at the call site that reads `bounds`. -/
  bounds : Mesh → Vec3 × Vec3
  /-- Whether `hasattr(mesh, "has_self_intersections")` holds. -/
  hasSelfIntersectAttr : Bool
  /-- `mesh.has_self_intersections`, when the attribute exists. -/
  selfIntersect : Mesh → Bool
  /-- Whether `hasattr(mesh, "has_face_normals")` holds and the attribute is
  truthy (the guard of `_find_inverted_faces`). -/
  hasFaceNormalsAttr : Bool
  /-- Result of the inverted-face scan in `_find_inverted_faces` (a
  floating-point dot-product computation). -/
  invertedFaces : Mesh → List ℕ

/-- Squared threshold for degenerate-face tests: `area < 1e-10` on a triangle
whose area is `‖cross‖ / 2` is equivalent to `‖cross‖² < 4e-20`. -/
def degenEpsSqCross : ℚ := 4 / 10 ^ 20

/-- The vertex of `m` at index `i` (numpy indexing; the source assumes faces
index valid vertices). -/
def Mesh.vertexAt (m : Mesh) (i : ℕ) : Vec3 := m.vertices.getD i (0, 0, 0)

/-- Squared norm of the cross product spanning face `f`, i.e. `(2 · area)²`. -/
def faceCrossSq (m : Mesh) (f : ℕ × ℕ × ℕ) : ℚ :=
  let a := m.vertexAt f.1
  let b := m.vertexAt f.2.1
  let c := m.vertexAt f.2.2
  normSq (cross (vsub b a) (vsub c a))

/-- List slicing `l[::stp]` with positive stride: keep indices divisible by
`stp`. -/
def everyNth (stp : ℕ) (l : List α) : List α :=
  (l.enum.filter (fun p => p.1 % stp == 0)).map (·.2)

/-- Permitted denoising algorithms (the `if` chain of
`DenoiseProcessor.process`, preprocessing.py:217-226). -/
def denoiseAlgorithms : List AlgorithmType :=
  [.bilateral_filter, .gaussian_filter, .statistical_outlier_removal]

/-- Permitted decimation algorithms (`DecimateProcessor.process`,
preprocessing.py:368-375). -/
def decimateAlgorithms : List AlgorithmType :=
  [.voxel_down_sample, .uniform_down_sample]

/-- Model of `DenoiseProcessor._trimesh_denoise_fallback` (preprocessing.py:333-351):
copy, deduplicate when available, fix normals; when every face area exceeds
`1e-10` the mesh is returned unchanged. Otherwise the source evaluates
`denoised_mesh.submesh([valid_faces])` (line 349), which with trimesh's
default `append=False` returns a LIST of submeshes, not a `Trimesh`, so the
caller's metrics computation `len(result_mesh.vertices)`
(preprocessing.py:239) raises `AttributeError`. Note the fallback never
inspects the configured algorithm. -/
def DenoiseProcessor.trimesh_denoise_fallback (g : GeoLib) (mesh : Mesh) :
    Except PErr Mesh :=
  let m1 := if g.dedupAvailable then g.dedup mesh else mesh
  let m2 := g.fixNormals m1
  if m2.faces.all (fun f => faceCrossSq m2 f > degenEpsSqCross) then .ok m2
  else .error .attributeErr

/-- Model of `DenoiseProcessor.process` (preprocessing.py:206-245). With Open3D
available an unsupported algorithm raises `ValueError`; without Open3D the
fallback runs regardless of the configured algorithm, and the metrics
computation on its result propagates the fallback's `AttributeError` when a
degenerate face made `submesh` return a list. -/
def DenoiseProcessor.process (o3d : Bool) (g : GeoLib) (config : PipelineStepConfig)
    (mesh : Mesh) : Except PErr (Mesh × PipelineMetrics) :=
  if o3d then
    if config.algorithm ∈ denoiseAlgorithms then
      let result := g.o3dDenoise config.algorithm config.parameters mesh
      .ok (result, mkMetrics mesh result)
    else
      .error (.unsupportedAlgorithm .denoise config.algorithm)
  else
    match DenoiseProcessor.trimesh_denoise_fallback g mesh with
    | .error e => .error e
    | .ok result => .ok (result, mkMetrics mesh result)

/-- Model of `DecimateProcessor._trimesh_decimate_fallback` (preprocessing.py:457-500):
uniform index striding keeping every `stp`-th vertex, dropping faces that
reference removed vertices; falls back to the original mesh when no faces
survive. -/
def DecimateProcessor.trimesh_decimate_fallback (config : PipelineStepConfig)
    (mesh : Mesh) : Mesh :=
  let nv := mesh.vertices.length
  let target_vertices :=
    if config.algorithm = .voxel_down_sample then max 100 (nv / 2)
    else if config.algorithm = .uniform_down_sample then
      paramGet config.parameters "target_vertices" (nv / 2)
    else nv / 2
  if nv ≤ target_vertices then mesh
  else
    let stp := max 1 (nv / target_vertices)
    let inMap := fun v => v % stp == 0 && v < nv
    let new_vertices := everyNth stp mesh.vertices
    let new_faces :=
      (mesh.faces.filter (fun f => inMap f.1 && inMap f.2.1 && inMap f.2.2)).map
        (fun f => (f.1 / stp, f.2.1 / stp, f.2.2 / stp))
    if new_faces = [] then mesh
    else { vertices := new_vertices, faces := new_faces }

/-- Model of `DecimateProcessor.process` (preprocessing.py:357-394). -/
def DecimateProcessor.process (o3d : Bool) (g : GeoLib) (config : PipelineStepConfig)
    (mesh : Mesh) : Except PErr (Mesh × PipelineMetrics) :=
  if o3d then
    if config.algorithm ∈ decimateAlgorithms then
      let result := g.o3dDecimate config.algorithm config.parameters mesh
      .ok (result, mkMetrics mesh result)
    else
      .error (.unsupportedAlgorithm .decimate config.algorithm)
  else
    let result := DecimateProcessor.trimesh_decimate_fallback config mesh
    .ok (result, mkMetrics mesh result)

/-- Model of `DenoiseProcessor.get_cache_key` (preprocessing.py:247-251): the content
string `f"{nv}_{nf}_{algorithm}_{sorted-json-params}"` whose SHA-256 the
source returns; hashing is modelled as the identity on this content. -/
def DenoiseProcessor.get_cache_key (config : PipelineStepConfig) (mesh : Mesh) : String :=
  toString mesh.vertices.length ++ "_" ++ toString mesh.faces.length ++ "_" ++
    config.algorithm.value ++ "_" ++ renderParams config.parameters

/-- Model of `DecimateProcessor.get_cache_key` (preprocessing.py:396-399); the source
duplicates the denoise implementation verbatim. -/
def DecimateProcessor.get_cache_key (config : PipelineStepConfig) (mesh : Mesh) : String :=
  toString mesh.vertices.length ++ "_" ++ toString mesh.faces.length ++ "_" ++
    config.algorithm.value ++ "_" ++ renderParams config.parameters

/-- Metadata persisted in a `<key>.json` cache file (preprocessing.py:579-595). -/
structure CacheMeta where
  step_name : String
  parameters : Params
  metrics : PipelineMetrics
  created_at : ℚ
  accessed_at : ℚ
  access_count : ℕ
deriving DecidableEq, Repr

/-- In-memory cache entry (`CacheEntry` dataclass, preprocessing.py:104).
`meshVal` is the content of the `.ply` blob that `file_path` points at. -/
structure CacheEntry where
  content_hash : String
  meshVal : Mesh
  step_name : String
  parameters : Params
  metrics : PipelineMetrics
  created_at : ℚ
  accessed_at : ℚ
  access_count : ℕ
deriving DecidableEq, Repr

/-- Model of `CacheEntry.update_access` (preprocessing.py:117-120). -/
def CacheEntry.update_access (now : ℚ) (e : CacheEntry) : CacheEntry :=
  { e with accessed_at := now, access_count := e.access_count + 1 }

/-- The cache directory: metadata files and mesh blobs keyed by cache key. -/
structure CacheFiles where
  meta : String → Option CacheMeta
  blob : String → Option Mesh

/-- Model of `PipelineCache` state (preprocessing.py:503-514): file store, TTL and
hit/miss counters. -/
structure PipelineCache where
  files : CacheFiles
  ttl_seconds : ℚ
  hit_count : ℕ
  miss_count : ℕ

/-- A freshly constructed `PipelineCache(cache_dir, ttl_hours)` over an empty
directory. -/
def PipelineCache.init (ttl_hours : ℕ) : PipelineCache :=
  { files := { meta := fun _ => none, blob := fun _ => none }
    ttl_seconds := (ttl_hours : ℚ) * 3600
    hit_count := 0
    miss_count := 0 }

/-- Model of `PipelineCache._remove_entry` (preprocessing.py:605-613): unlink both
files of a key. -/
def PipelineCache.remove_entry (cache_key : String) (c : PipelineCache) : PipelineCache :=
  { c with files :=
      { meta := fun k => if k = cache_key then none else c.files.meta k
        blob := fun k => if k = cache_key then none else c.files.blob k } }

/-- Model of `PipelineCache.get` (preprocessing.py:516-561). Returns the entry (if
any) and the updated cache state. Cache files that exist are modelled as
well-formed (an unreadable file is deleted by the source and misses, which
coincides with modelling it as absent). -/
def PipelineCache.get (now : ℚ) (cache_key : String) (c : PipelineCache) :
    Option CacheEntry × PipelineCache :=
  match c.files.meta cache_key, c.files.blob cache_key with
  | some md, some b =>
    if now - md.created_at > c.ttl_seconds then
      let c1 := PipelineCache.remove_entry cache_key c
      (none, { c1 with miss_count := c1.miss_count + 1 })
    else
      let e : CacheEntry :=
        { content_hash := cache_key
          meshVal := b
          step_name := md.step_name
          parameters := md.parameters
          metrics := md.metrics
          created_at := md.created_at
          accessed_at := md.accessed_at
          access_count := md.access_count }
      (some (e.update_access now), { c with hit_count := c.hit_count + 1 })
  | _, _ => (none, { c with miss_count := c.miss_count + 1 })

/-- Model of `PipelineCache.put` (preprocessing.py:563-603). The source wraps the two
file writes in a `try/except` that only logs, so `put` is total; `exportFails`
and `metaWriteFails` inject a failure of `mesh.export` (nothing written) or of
the metadata write (blob written, metadata not). -/
def PipelineCache.put (now : ℚ) (cache_key : String) (mesh : Mesh)
    (step_name : String) (parameters : Params) (metrics : PipelineMetrics)
    (exportFails metaWriteFails : Bool) (c : PipelineCache) : PipelineCache :=
  if exportFails then c
  else
    let c1 := { c with files :=
      { c.files with blob := fun k => if k = cache_key then some mesh else c.files.blob k } }
    if metaWriteFails then c1
    else
      let md : CacheMeta :=
        { step_name := step_name
          parameters := parameters
          metrics := metrics
          created_at := now
          accessed_at := now
          access_count := 1 }
      { c1 with files :=
        { c1.files with meta := fun k =>
            if k = cache_key then some md else c.files.meta k } }

/-- A processor as stored in `PreprocessingPipeline.processors`: its `process`
method and its `get_cache_key` method, closed over the step's config. -/
structure StepProcessor where
  proc : Mesh → Except PErr (Mesh × PipelineMetrics)
  cacheKey : Mesh → String

/-- Model of `PreprocessingPipeline._initialize_processors` (preprocessing.py:642-657),
restricted to one step config: only DENOISE and DECIMATE have processors;
every other step kind gets none (only a warning is logged). Configs satisfy
the `PipelineConfig` duplicate-step invariant, so the per-step dict lookup
coincides with building the processor from the step's own config. -/
def initialize_processor (o3d : Bool) (g : GeoLib) (sc : PipelineStepConfig) :
    Option StepProcessor :=
  match sc.step with
  | .denoise => some ⟨DenoiseProcessor.process o3d g sc, DenoiseProcessor.get_cache_key sc⟩
  | .decimate => some ⟨DecimateProcessor.process o3d g sc, DecimateProcessor.get_cache_key sc⟩
  | _ => none

/-- Loop state of `PreprocessingPipeline.process`: the current mesh, the
accumulated `all_metrics` mapping and the cache. -/
structure PipelineState where
  current : Mesh
  all_metrics : List (String × PipelineMetrics)
  cache : PipelineCache

/-- One iteration of the step loop of `PreprocessingPipeline.process`
(preprocessing.py:668-720). Note the asymmetry present in the source: the
cache lookup key is computed from the CURRENT mesh (line 679) while the store
key after computing is taken from the pipeline's original INPUT mesh
(line 703). -/
def runStep (o3d : Bool) (g : GeoLib) (pipelineCacheEnabled : Bool)
    (input_mesh : Mesh) (now : ℚ) (st : PipelineState) (sc : PipelineStepConfig) :
    Except PErr PipelineState :=
  if sc.enabled = false then .ok st
  else
    match initialize_processor o3d g sc with
    | none => .ok st
    | some p =>
      if sc.cache_enabled && pipelineCacheEnabled then
        let r := PipelineCache.get now (p.cacheKey st.current) st.cache
        match r.1 with
        | some e => .ok ⟨e.meshVal, st.all_metrics ++ [(sc.step.value, e.metrics)], r.2⟩
        | none =>
          match p.proc st.current with
          | .error er => .error er
          | .ok (m2, met) =>
            let c2 := PipelineCache.put now (p.cacheKey input_mesh) m2 sc.step.value
              sc.parameters met false false r.2
            .ok ⟨m2, st.all_metrics ++ [(sc.step.value, met)], c2⟩
      else
        match p.proc st.current with
        | .error er => .error er
        | .ok (m2, met) => .ok ⟨m2, st.all_metrics ++ [(sc.step.value, met)], st.cache⟩

/-- The step loop of `PreprocessingPipeline.process` over a list of step
configs. -/
def runSteps (o3d : Bool) (g : GeoLib) (pipelineCacheEnabled : Bool)
    (input_mesh : Mesh) (now : ℚ) :
    List PipelineStepConfig → PipelineState → Except PErr PipelineState
  | [], st => .ok st
  | sc :: rest, st =>
    match runStep o3d g pipelineCacheEnabled input_mesh now st sc with
    | .error e => .error e
    | .ok st1 => runSteps o3d g pipelineCacheEnabled input_mesh now rest st1

/-- Model of `PreprocessingPipeline.process` (preprocessing.py:659-726), given the
pipeline's cache state. -/
def PreprocessingPipeline.process (o3d : Bool) (g : GeoLib) (config : PipelineConfig)
    (now : ℚ) (input_mesh : Mesh) (cache : PipelineCache) : Except PErr PipelineState :=
  runSteps o3d g config.cache_enabled input_mesh now config.steps
    ⟨input_mesh, [], cache⟩

/-- Validation levels (`ValidationLevel` enum, geometry.py:39). -/
inductive ValidationLevel
  | basic | standard | strict
deriving DecidableEq, Repr

/-- Mesh information snapshot (`MeshInfo` dataclass, geometry.py:47). -/
structure MeshInfo where
  vertices : ℕ
  faces : ℕ
  boundsVal : Vec3 × Vec3
  volume : ℚ
  surface_area : ℚ
  is_watertight : Bool
  is_manifold : Bool
  has_normals : Bool
deriving DecidableEq, Repr

/-- Hard validation failures appended to `issues` in
`MeshValidator.validate_mesh`, one constructor per `issues.append` site. -/
inductive Issue
  | emptyMesh
  | degenerateFaces (n : ℕ)
  | notManifold
  | selfIntersections
deriving DecidableEq, Repr

/-- Soft findings appended to `warnings`, one constructor per
`warnings.append` site. -/
inductive MeshWarning
  | duplicateVertices (n : ℕ)
  | noNormals
  | notWatertight
  | invertedFaces (n : ℕ)
deriving DecidableEq, Repr

/-- Entries of `repairs_applied`, one constructor per
`repairs_applied.append` site. -/
inductive Repair
  | removedDegenerateFaces
  | removedDuplicateVertices
  | generatedFaceNormals
  | fixedInvertedFaces
deriving DecidableEq, Repr

/-- Validation report (`ValidationReport` dataclass, geometry.py:65).
`validation_time` is 0 under the frozen-clock model. -/
structure ValidationReport where
  is_valid : Bool
  issues : List Issue
  warnings : List MeshWarning
  repairs_applied : List Repair
  validation_level : ValidationLevel
  mesh_info : MeshInfo
  validation_time : ℚ := 0
deriving DecidableEq, Repr

/-- Model of `MeshValidator._get_mesh_info` (geometry.py:281-305). Trimesh's
`mesh.bounds` is `None` for a face-less mesh (it has no triangles), so the
tuple access `(mesh.bounds[0], mesh.bounds[1])` (geometry.py:299) raises
`TypeError` and no `MeshInfo` is produced; otherwise the bounds are a real
corner pair, supplied by `g.bounds`. -/
def MeshValidator.get_mesh_info (g : GeoLib) (m : Mesh) : Except PErr MeshInfo :=
  if m.faces.length = 0 then .error .typeErr
  else
    let is_manifold :=
      if g.hasManifoldAttr then g.isManifoldAttr m
      else g.isWatertight m && decide (0 < m.faces.length)
    .ok { vertices := m.vertices.length
          faces := m.faces.length
          boundsVal := g.bounds m
          volume := if g.isWatertight m then g.volume m else 0
          surface_area := g.area m
          is_watertight := g.isWatertight m
          is_manifold := is_manifold
          has_normals := g.hasNormals m }

/-- Model of `MeshValidator._find_degenerate_faces` (geometry.py:307-310): indices of
faces with `area < 1e-10`, via the squared-cross-product comparison. -/
def MeshValidator.find_degenerate_faces (m : Mesh) : List ℕ :=
  (m.faces.enum.filter (fun p => faceCrossSq m p.2 < degenEpsSqCross)).map (·.1)

/-- Model of `MeshValidator._remove_degenerate_faces` (geometry.py:312-316): it
returns `mesh.submesh([valid_faces])` where `valid_faces` masks the faces
with `area > 1e-10`. With trimesh's default `append=False`, `submesh` returns
a LIST of submeshes — here a singleton holding the filtered mesh — not a
`Trimesh` object. -/
def MeshValidator.remove_degenerate_faces (m : Mesh) : List Mesh :=
  [{ m with faces := m.faces.filter (fun f => degenEpsSqCross < faceCrossSq m f) }]

/-- Lexicographic order on vertices, matching the row ordering `np.unique`
uses on an `(n, 3)` float array. -/
def vecLe (a b : Vec3) : Bool :=
  decide (a.1 < b.1) ||
    (decide (a.1 = b.1) &&
      (decide (a.2.1 < b.2.1) ||
        (decide (a.2.1 = b.2.1) && decide (a.2.2 ≤ b.2.2))))

/-- Insertion step of the vertex sort. -/
def insertVec (v : Vec3) : List Vec3 → List Vec3
  | [] => [v]
  | w :: t => if vecLe v w then v :: w :: t else w :: insertVec v t

/-- Sort vertices lexicographically (the sort inside `np.unique(…, axis=0)`). -/
def sortVecs : List Vec3 → List Vec3
  | [] => []
  | v :: t => insertVec v (sortVecs t)

/-- Collapse adjacent equal elements of a sorted list (the uniqueness step of
`np.unique`). -/
def dedupAdj : List Vec3 → List Vec3
  | [] => []
  | [v] => [v]
  | v :: w :: t => if v = w then dedupAdj (w :: t) else v :: dedupAdj (w :: t)

/-- Model of `MeshValidator._find_duplicate_vertices` (geometry.py:318-323): indices
`i` whose position of `vertices[i]` in the sorted unique array differs from
`i` (the `inverse_indices != arange` test of the source). -/
def MeshValidator.find_duplicate_vertices (m : Mesh) : List ℕ :=
  let uniq := dedupAdj (sortVecs m.vertices)
  (m.vertices.enum.filter
    (fun p => uniq.findIdx (fun w => decide (w = p.2)) ≠ p.1)).map (·.1)

/-- Result of `MeshValidator.validate_mesh`: the report, the value of the
caller's mesh object after the call (the source mutates it only through
in-place `fix_normals` while the local `mesh` variable still aliases it),
and the final internal working copy (the local `mesh` at return time). -/
structure ValidateResult where
  report : ValidationReport
  callerMesh : Mesh
  workingMesh : Mesh
deriving Repr

/-- Model of `MeshValidator.validate_mesh` (geometry.py:189-279). `mesh_info` is
computed FIRST, before any check or repair, and for a face-less mesh it
raises `TypeError` (its `bounds` is `None`), so no report exists at any
level. The STRICT degenerate-face repair (geometry.py:211) rebinds the local
`mesh` to the LIST `_remove_degenerate_faces` returns, so the duplicate-vertex
scan that follows (`mesh.vertices` at geometry.py:214) raises
`AttributeError`: that path returns no report either. The surviving repairs
rebind the local `mesh` (breaking aliasing with the caller's object) except
`fix_normals`, which mutates in place. -/
def MeshValidator.validate_mesh (g : GeoLib) (validation_level : ValidationLevel)
    (mesh0 : Mesh) : Except PErr ValidateResult :=
  match MeshValidator.get_mesh_info g mesh0 with
  | .error e => .error e
  | .ok mesh_info =>
  if validation_level = .basic then
    .ok
    { report :=
        { is_valid := true, issues := [], warnings := [], repairs_applied := []
          validation_level := validation_level, mesh_info := mesh_info }
      callerMesh := mesh0
      workingMesh := mesh0 }
  else
    let strict := decide (validation_level = .strict)
    -- empty-mesh check
    let issues0 : List Issue :=
      if mesh0.vertices.length = 0 ∨ mesh0.faces.length = 0 then [.emptyMesh] else []
    -- degenerate faces (found on the input mesh, removed only at STRICT)
    let degs := MeshValidator.find_degenerate_faces mesh0
    let issues1 := issues0 ++ (if !degs.isEmpty then [.degenerateFaces degs.length] else [])
    if !degs.isEmpty && strict then
      -- the repair rebinds `mesh` to the submesh list; the very next read of
      -- `mesh.vertices` (geometry.py:214) raises AttributeError
      .error .attributeErr
    else
    -- the degenerate repair did not run, so the working copy still aliases
    -- the caller's mesh here
    let dups := MeshValidator.find_duplicate_vertices mesh0
    let warns1 : List MeshWarning :=
      if !dups.isEmpty then [.duplicateVertices dups.length] else []
    let repairs2 : List Repair :=
      if !dups.isEmpty && strict then [.removedDuplicateVertices] else []
    let cur2 := if !dups.isEmpty && strict && g.dedupAvailable then g.dedup mesh0 else mesh0
    let aliased2 := if !dups.isEmpty && strict && g.dedupAvailable then false else true
    -- normals (repair `mesh.fix_normals()` is IN PLACE)
    let hasN := g.hasNormals cur2
    let warns2 := warns1 ++ (if !hasN then [.noNormals] else [])
    let repairs3 := repairs2 ++ (if !hasN && strict then [.generatedFaceNormals] else [])
    let cur3 := if !hasN && strict then g.fixNormals cur2 else cur2
    let caller3 := if !hasN && strict && aliased2 then cur3 else mesh0
    -- manifoldness / watertightness on the working copy
    let is_manifold :=
      if g.hasManifoldAttr then g.isManifoldAttr cur3
      else g.isWatertight cur3 && decide (0 < cur3.faces.length)
    let issues2 := issues1 ++ (if !is_manifold then [.notManifold] else [])
    let warns3 := warns2 ++ (if !(g.isWatertight cur3) then [.notWatertight] else [])
    -- STRICT-only block: self-intersections and inverted faces
    let hasSI := if g.hasSelfIntersectAttr then g.selfIntersect cur3 else false
    let issues3 := issues2 ++ (if strict && hasSI then [.selfIntersections] else [])
    let inv := if g.hasFaceNormalsAttr then g.invertedFaces cur3 else []
    let warns4 := warns3 ++
      (if strict && !inv.isEmpty then [.invertedFaces inv.length] else [])
    let repairs4 := repairs3 ++ (if strict && !inv.isEmpty then [.fixedInvertedFaces] else [])
    let cur4 := if strict && !inv.isEmpty then g.fixNormals cur3 else cur3
    let caller4 := if strict && !inv.isEmpty && aliased2 then cur4 else caller3
    .ok
    { report :=
        { is_valid := issues3.isEmpty, issues := issues3, warnings := warns4
          repairs_applied := repairs4, validation_level := validation_level
          mesh_info := mesh_info }
      callerMesh := caller4
      workingMesh := cur4 }

/-- Loader error taxonomy (spec §7): `FileNotFoundError` at geometry.py:120 is
the spec's `NotFoundError`, `MemoryError` at geometry.py:125 is
`ResourceLimitError`, and the `ValueError`s for an unloadable or
structure-less parse result (geometry.py:137,141) are `FormatError`. -/
inductive LoadErr
  | notFound
  | resourceLimit
  | formatErr
deriving DecidableEq, Repr

/-- Observable actions of `TrimeshLoader.load`, in execution order. -/
inductive LoadEvent
  | checkedExistence
  | checkedFileSize
  | checkedAvailableMemory
  | parseAttempted
deriving DecidableEq, Repr

/-- A file on disk: its byte size and the mesh `trimesh.load` would produce
(`none` when parsing fails or the result lacks vertex/face structure). -/
structure FileEntry where
  size : ℕ
  parsed : Option Mesh

/-- The file system visible to the loader. -/
structure FileSys where
  files : String → Option FileEntry

/-- Model of `TrimeshLoader.load` (geometry.py:114-150) with its event trace:
existence check, file-size cap (`file_size > memory_limit_mb * 1024 * 1024`),
available-system-memory check (`_check_memory_usage`, geometry.py:106-112,
which logs a warning but never raises), then the parse attempt. -/
def TrimeshLoader.load (fs : FileSys) (memory_limit_mb : ℕ) (path : String) :
    Except LoadErr Mesh × List LoadEvent :=
  match fs.files path with
  | none => (.error .notFound, [.checkedExistence])
  | some fe =>
    if memory_limit_mb * 1024 * 1024 < fe.size then
      (.error .resourceLimit, [.checkedExistence, .checkedFileSize])
    else
      match fe.parsed with
      | none =>
        (.error .formatErr,
         [.checkedExistence, .checkedFileSize, .checkedAvailableMemory, .parseAttempted])
      | some m =>
        (.ok m,
         [.checkedExistence, .checkedFileSize, .checkedAvailableMemory, .parseAttempted])

/-- Translate every vertex (`mesh.apply_translation(v)`). -/
def translateMesh (v : Vec3) (m : Mesh) : Mesh :=
  { m with vertices := m.vertices.map (fun p => vadd p v) }

/-- Uniform scaling about the origin
(`mesh.apply_transform(trimesh.transformations.scale_matrix(k))`). -/
def scaleMesh (k : ℚ) (m : Mesh) : Mesh :=
  { m with vertices := m.vertices.map (vsmul k) }

/-- The static unit table of `MeshNormalizer._get_scale_factor`
(geometry.py:419-432), with default 1.0 for unknown units; units are assumed
already lowercase (the source lowercases its inputs). -/
def unit_conversions (u : String) : ℚ :=
  if u = "mm" then 1
  else if u = "cm" then 10
  else if u = "m" then 1000
  else if u = "in" then 254 / 10
  else if u = "ft" then 3048 / 10
  else 1

/-- Model of `MeshNormalizer._get_scale_factor` (geometry.py:419-432). -/
def MeshNormalizer.get_scale_factor (from_units to_units : String) : ℚ :=
  unit_conversions from_units / unit_conversions to_units

/-- Model of `np.max(bounds[1] - bounds[0])`: the largest bounding-box extent. -/
def extent (b : Vec3 × Vec3) : ℚ :=
  max (b.2.1 - b.1.1) (max (b.2.2.1 - b.1.2.1) (b.2.2.2 - b.1.2.2))

/-- Result of `MeshNormalizer.normalize_mesh`: the normalized copy and the
caller's mesh after the call (the source copies on entry, geometry.py:397,
and every subsequent operation targets the copy). -/
structure NormalizeResult where
  result : Mesh
  original : Mesh

/-- Model of `MeshNormalizer.normalize_mesh` (geometry.py:393-417), abstracted over
the geometry library's center-of-mass (`mesh.center_mass`) and bounds
(`mesh.bounds`) computations: copy, optional unit rescale, translate by the
negated center of mass, then scale about the origin to the target size when
the extent is positive. -/
def MeshNormalizer.normalize_mesh (cm : Mesh → Vec3) (bounds : Mesh → Vec3 × Vec3)
    (target_scale : ℚ) (target_units : String) (units : Option String)
    (mesh : Mesh) : NormalizeResult :=
  let m0 := mesh
  let m1 :=
    match units with
    | some u =>
      if u ≠ target_units then
        scaleMesh (MeshNormalizer.get_scale_factor u target_units) m0
      else m0
    | none => m0
  let m2 := translateMesh (vneg (cm m1)) m1
  let current_scale := extent (bounds m2)
  let m3 := if 0 < current_scale then scaleMesh (target_scale / current_scale) m2 else m2
  { result := m3, original := mesh }

/-- Componentwise minimum of two vertices. -/
def vmin (a b : Vec3) : Vec3 := (min a.1 b.1, min a.2.1 b.2.1, min a.2.2 b.2.2)

/-- Componentwise maximum of two vertices. -/
def vmax (a b : Vec3) : Vec3 := (max a.1 b.1, max a.2.1 b.2.1, max a.2.2 b.2.2)

/-- Concrete axis-aligned bounds of a mesh (a faithful instance of
`mesh.bounds` for nonempty meshes, used to instantiate witnesses). -/
def boundsOf (m : Mesh) : Vec3 × Vec3 :=
  match m.vertices with
  | [] => ((0, 0, 0), (0, 0, 0))
  | v :: t => (t.foldl vmin v, t.foldl vmax v)

/-- Arithmetic mean of the vertices: a concrete center-of-mass function that
is translation-equivariant and scale-homogeneous on nonempty meshes, used to
instantiate witnesses. -/
def vmean (m : Mesh) : Vec3 :=
  let n : ℚ := m.vertices.length
  ((m.vertices.map (fun p => p.1)).sum / n,
   (m.vertices.map (fun p => p.2.1)).sum / n,
   (m.vertices.map (fun p => p.2.2)).sum / n)

/-- The 4-tuple the cache-key content is a function of: vertex count, face
count, algorithm identifier and sorted-JSON parameters (spec §4.4). -/
def cacheKeyContent (nv nf : ℕ) (algo : AlgorithmType) (parameters : Params) : String :=
  toString nv ++ "_" ++ toString nf ++ "_" ++ algo.value ++ "_" ++ renderParams parameters

/-- Boolean success test for `Except` values. -/
def exceptOk : Except ε α → Bool
  | .ok _ => true
  | .error _ => false

/-- One concrete, fully computable instantiation of the third-party library
behaviour: Open3D filters that return their input unchanged, no optional
trimesh attributes, `fix_normals` a no-op. Used to evaluate the model on
concrete inputs. -/
def trivGeo : GeoLib :=
  { o3dDenoise := fun _ _ m => m
    o3dDecimate := fun _ _ m => m
    fixNormals := fun m => m
    dedupAvailable := false
    dedup := fun m => m
    isWatertight := fun _ => false
    hasManifoldAttr := false
    isManifoldAttr := fun _ => false
    hasNormals := fun _ => true
    area := fun _ => 0
    volume := fun _ => 0
    bounds := boundsOf
    hasSelfIntersectAttr := false
    selfIntersect := fun _ => false
    hasFaceNormalsAttr := false
    invertedFaces := fun _ => [] }

/-- A single right triangle. -/
def cexMeshA : Mesh := ⟨[(0, 0, 0), (1, 0, 0), (0, 1, 0)], [(0, 1, 2)]⟩

/-- A geometrically different mesh with the same vertex and face counts as
`cexMeshA`. -/
def cexMeshB : Mesh := ⟨[(5, 5, 5), (7, 1, 2), (9, 9, 9)], [(0, 1, 2)]⟩

/-- A mesh with one proper face and one degenerate face (vertex 0 repeated). -/
def cexDegenMesh : Mesh := ⟨[(0, 0, 0), (1, 0, 0), (0, 1, 0)], [(0, 1, 2), (0, 0, 1)]⟩

/-- A tetrahedron translated away from the origin (normalizer fixture). -/
def cexTetra : Mesh :=
  ⟨[(10, 20, 30), (11, 20, 30), (10, 21, 30), (10, 20, 31)],
   [(0, 1, 2), (0, 2, 3), (0, 3, 1), (1, 3, 2)]⟩

/-- A Decimate step config carrying a hole-filling algorithm. -/
def cexPoissonDecimate : PipelineStepConfig :=
  { step := .decimate, algorithm := .poisson_reconstruction }

/-- A Denoise step config carrying a hole-filling algorithm. -/
def cexPoissonDenoise : PipelineStepConfig :=
  { step := .denoise, algorithm := .poisson_reconstruction }

/-- A hole-fill step config (a step kind with no implemented processor). -/
def cexHoleCfg : PipelineStepConfig :=
  { step := .hole_fill, algorithm := .poisson_reconstruction }

/-- A pipeline loop state fixture. -/
def stW : PipelineState := ⟨cexMeshA, [], PipelineCache.init 24⟩

/-- A file system with one oversized parseable file and nothing else. -/
def cexFS : FileSys :=
  ⟨fun p => if p = "big.stl" then some ⟨2097152, some cexMeshA⟩ else none⟩

/-- Cache metadata fixture. -/
def cexMeta : CacheMeta :=
  { step_name := "denoise", parameters := [], metrics := mkMetrics cexMeshA cexMeshA
    created_at := 0, accessed_at := 0, access_count := 1 }

/-- A cache holding one complete entry under key `"k1"`. -/
def cexCache : PipelineCache :=
  { files :=
      { meta := fun k => if k = "k1" then some cexMeta else none
        blob := fun k => if k = "k1" then some cexMeshA else none }
    ttl_seconds := 86400
    hit_count := 3
    miss_count := 5 }

/-- Pointwise extension order on cache file stores: every file present on the
left is present, with the same content, on the right. -/
def FilesLe (F G : CacheFiles) : Prop :=
  (∀ k v, F.meta k = some v → G.meta k = some v) ∧
  (∀ k b, F.blob k = some b → G.blob k = some b)

/-- Invariant of a cache directory populated by a single pipeline run at
clock `t` on a mesh with counts `(nv, nf)`: metadata and blob files come in
pairs, all created at `t`, and every cached mesh has counts `(nv, nf)`. -/
def GoodCache (t : ℚ) (nv nf : ℕ) (F : CacheFiles) : Prop :=
  (∀ k, (F.meta k).isSome ↔ (F.blob k).isSome) ∧
  (∀ k md, F.meta k = some md → md.created_at = t) ∧
  (∀ k b, F.blob k = some b → b.vertices.length = nv ∧ b.faces.length = nf)

/-- A step config whose processor (when one exists) succeeds on, and
preserves the vertex/face counts of, every mesh with counts `(nv, nf)`. -/
def StepOk (o3d : Bool) (g : GeoLib) (nv nf : ℕ) (sc : PipelineStepConfig) : Prop :=
  ∀ p, initialize_processor o3d g sc = some p →
    ∀ m : Mesh, m.vertices.length = nv → m.faces.length = nf →
      ∃ m2 met, p.proc m = .ok (m2, met) ∧
        m2.vertices.length = nv ∧ m2.faces.length = nf

/-- Number of steps of a run that interact with the cache: enabled,
cache-enabled (at both levels) and backed by an implemented processor. -/
def cachedCount (o3d : Bool) (g : GeoLib) (pce : Bool)
    (scs : List PipelineStepConfig) : ℕ :=
  (scs.filter (fun sc =>
    sc.enabled && (sc.cache_enabled && pce) && (initialize_processor o3d g sc).isSome)).length

/-- A one-step pipeline whose denoise processor (under the identity Open3D
behaviour) preserves counts. -/
def cfgSingleDenoise : PipelineConfig :=
  { name := "single", steps := [{ step := .denoise, algorithm := .bilateral_filter }] }

/-- Decimation step of the counterexample pipeline. -/
def cexStepDecim : PipelineStepConfig :=
  { step := .decimate, algorithm := .uniform_down_sample
    parameters := [("target_vertices", 3)] }

/-- Denoise step of the counterexample pipeline. -/
def cexStepDenoise : PipelineStepConfig :=
  { step := .denoise, algorithm := .statistical_outlier_removal }

/-- A Decimate-then-Denoise pipeline: the decimation step changes the vertex
and face counts of the mesh flowing into the denoise step. -/
def cexPipeline : PipelineConfig :=
  { name := "cex", steps := [cexStepDecim, cexStepDenoise] }

/-- Six vertices, two faces; decimation to 3 target vertices keeps vertices
0, 2, 4 and the single face over them. -/
def cexMesh6 : Mesh :=
  ⟨[(0, 0, 0), (5, 5, 5), (1, 0, 0), (6, 6, 6), (0, 1, 0), (7, 7, 7)],
   [(0, 2, 4), (0, 1, 2)]⟩

/-- Fallback state used to destructure pipeline run results. -/
def defaultState : PipelineState := ⟨cexMesh6, [], PipelineCache.init 24⟩

/-- First run of `cexPipeline` on `cexMesh6` from a fresh cache. -/
def cexRun1 : Except PErr PipelineState :=
  PreprocessingPipeline.process false trivGeo cexPipeline 0 cexMesh6 (PipelineCache.init 24)

/-- State after the first run. -/
def cexState1 : PipelineState :=
  match cexRun1 with
  | .ok st => st
  | .error _ => defaultState

/-- Second, identical run continuing from the first run's cache. -/
def cexRun2 : Except PErr PipelineState :=
  PreprocessingPipeline.process false trivGeo cexPipeline 0 cexMesh6 cexState1.cache

/-- State after the second run. -/
def cexState2 : PipelineState :=
  match cexRun2 with
  | .ok st => st
  | .error _ => defaultState

/-- The mesh info `get_mesh_info` computes for `cexMeshA` under `trivGeo`. -/
def cexBasicInfo : MeshInfo :=
  { vertices := 3, faces := 1, boundsVal := boundsOf cexMeshA, volume := 0
    surface_area := 0, is_watertight := false, is_manifold := false
    has_normals := true }

/-- The result of validating `cexMeshA` at BASIC under `trivGeo`. -/
def cexBasicResult : ValidateResult :=
  { report :=
      { is_valid := true, issues := [], warnings := [], repairs_applied := []
        validation_level := .basic, mesh_info := cexBasicInfo }
    callerMesh := cexMeshA
    workingMesh := cexMeshA }

/-- Reflexivity of `FilesLe`. -/
theorem filesLe_refl (F : CacheFiles) : FilesLe F F :=
  ⟨fun _ _ h => h, fun _ _ h => h⟩

/-- Transitivity of `FilesLe`. -/
theorem filesLe_trans {F G H : CacheFiles} (h1 : FilesLe F G) (h2 : FilesLe G H) :
    FilesLe F H :=
  ⟨fun k v hv => h2.1 k v (h1.1 k v hv), fun k b hb => h2.2 k b (h1.2 k b hb)⟩

/-- C4: the cache key does not depend on vertex geometry — two meshes with
equal vertex and face counts get the identical key string under the same step
config, and both processors' `get_cache_key` are a function of the 4-tuple
(vertex count, face count, algorithm, sorted-JSON parameters) only. -/
theorem cache_key_count_determined (config : PipelineStepConfig) (m1 m2 : Mesh)
    (hv : m1.vertices.length = m2.vertices.length)
    (hf : m1.faces.length = m2.faces.length) :
    DenoiseProcessor.get_cache_key config m1 = DenoiseProcessor.get_cache_key config m2 ∧
    DecimateProcessor.get_cache_key config m1 = DecimateProcessor.get_cache_key config m2 ∧
    DenoiseProcessor.get_cache_key config m1
      = cacheKeyContent m1.vertices.length m1.faces.length config.algorithm config.parameters ∧
    DecimateProcessor.get_cache_key config m1
      = cacheKeyContent m1.vertices.length m1.faces.length config.algorithm config.parameters := by
  unfold DenoiseProcessor.get_cache_key DecimateProcessor.get_cache_key cacheKeyContent
  rw [hv, hf]
  exact ⟨rfl, rfl, rfl, rfl⟩

/-- Witness for C4: two geometrically different meshes with equal counts
share a cache key. -/
theorem cache_key_count_determined_witness :
    cexMeshA ≠ cexMeshB ∧
    DenoiseProcessor.get_cache_key cexPoissonDenoise cexMeshA
      = DenoiseProcessor.get_cache_key cexPoissonDenoise cexMeshB :=
  ⟨by decide, (cache_key_count_determined cexPoissonDenoise cexMeshA cexMeshB rfl rfl).1⟩

/-- C6: `load` fails with the taxonomy's NotFoundError when the path does not
exist; an oversized file fails with ResourceLimitError before any parse
attempt; and whenever a parse is attempted, the available-system-memory
check has run before it. -/
theorem loader_guards (fs : FileSys) (memory_limit_mb : ℕ) (path : String) :
    (fs.files path = none →
      TrimeshLoader.load fs memory_limit_mb path = (.error .notFound, [.checkedExistence])) ∧
    (∀ fe, fs.files path = some fe → memory_limit_mb * 1024 * 1024 < fe.size →
      TrimeshLoader.load fs memory_limit_mb path
        = (.error .resourceLimit, [.checkedExistence, .checkedFileSize]) ∧
      LoadEvent.parseAttempted ∉ (TrimeshLoader.load fs memory_limit_mb path).2) ∧
    (LoadEvent.parseAttempted ∈ (TrimeshLoader.load fs memory_limit_mb path).2 →
      (TrimeshLoader.load fs memory_limit_mb path).2
        = [.checkedExistence, .checkedFileSize, .checkedAvailableMemory, .parseAttempted]) := by
  refine ⟨?_, ?_, ?_⟩
  · intro h
    simp [TrimeshLoader.load, h]
  · intro fe h hsz
    constructor
    · simp [TrimeshLoader.load, h, hsz]
    · simp [TrimeshLoader.load, h, hsz]
  · intro hmem
    rcases hfp : fs.files path with _ | fe
    · simp [TrimeshLoader.load, hfp] at hmem
    · by_cases hsz : memory_limit_mb * 1024 * 1024 < fe.size
      · simp [TrimeshLoader.load, hfp, hsz] at hmem
      · rcases hpar : fe.parsed with _ | m <;>
          simp [TrimeshLoader.load, hfp, hsz, hpar]

/-- Witness for C6: a missing path and an oversized file on a concrete file
system. -/
theorem loader_guards_witness :
    TrimeshLoader.load cexFS 1 "big.stl"
      = (.error .resourceLimit, [.checkedExistence, .checkedFileSize]) ∧
    TrimeshLoader.load cexFS 1 "missing.stl" = (.error .notFound, [.checkedExistence]) :=
  ⟨((loader_guards cexFS 1 "big.stl").2.1 ⟨2097152, some cexMeshA⟩ rfl (by norm_num)).1,
   (loader_guards cexFS 1 "missing.stl").1 rfl⟩

/-- C8: an enabled step whose kind has no implemented processor (hole_fill,
alignment, roi_crop, tooth_arch_isolation) is skipped: the run over
`sc :: rest` equals the run over `rest` from the same state — no exception,
no metrics entry, mesh and cache unchanged, remaining steps still executed. -/
theorem unimplemented_step_skipped (o3d : Bool) (g : GeoLib) (pce : Bool)
    (input : Mesh) (now : ℚ) (sc : PipelineStepConfig)
    (rest : List PipelineStepConfig) (st : PipelineState)
    (henabled : sc.enabled = true)
    (hstep : sc.step = .hole_fill ∨ sc.step = .alignment ∨ sc.step = .roi_crop ∨
      sc.step = .tooth_arch_isolation) :
    runSteps o3d g pce input now (sc :: rest) st = runSteps o3d g pce input now rest st := by
  have hnone : initialize_processor o3d g sc = none := by
    rcases hstep with h | h | h | h <;> simp [initialize_processor, h]
  simp [runSteps, runStep, henabled, hnone]

/-- Witness for C8: a hole-fill step at the head of a run is a no-op. -/
theorem unimplemented_step_skipped_witness :
    runSteps false trivGeo true cexMeshA 0 [cexHoleCfg] stW
      = runSteps false trivGeo true cexMeshA 0 [] stW :=
  unimplemented_step_skipped false trivGeo true cexMeshA 0 cexHoleCfg [] stW rfl (Or.inl rfl)

/-- C9 (amended): whenever `validate_mesh` returns a report, its `is_valid`
is true exactly when its `issues` list is empty (warnings and repairs never
matter); a face-less mesh — in particular the empty mesh — raises `TypeError`
at every level before any report exists (its `bounds` is `None`); and at
BASIC every mesh that has faces yields a report with empty issues and
`is_valid = true`. -/
theorem validate_is_valid_iff_issues_empty (g : GeoLib) (level : ValidationLevel)
    (m : Mesh) :
    (∀ r, MeshValidator.validate_mesh g level m = .ok r →
      (r.report.is_valid = true ↔ r.report.issues = [])) ∧
    (m.faces = [] → MeshValidator.validate_mesh g level m = .error .typeErr) ∧
    (level = .basic → m.faces ≠ [] →
      ∃ r, MeshValidator.validate_mesh g level m = .ok r ∧
        r.report.issues = [] ∧ r.report.is_valid = true) := by
  refine ⟨?_, ?_, ?_⟩
  · intro r hr
    rcases hmi : MeshValidator.get_mesh_info g m with e | mi
    · unfold MeshValidator.validate_mesh at hr
      rw [hmi] at hr
      cases hr
    · unfold MeshValidator.validate_mesh at hr
      rw [hmi] at hr
      dsimp only at hr
      by_cases hb : level = .basic
      · rw [if_pos hb] at hr
        cases hr
        simp
      · rw [if_neg hb] at hr
        by_cases hd : (!(MeshValidator.find_degenerate_faces m).isEmpty &&
            decide (level = .strict)) = true
        · rw [if_pos hd] at hr
          cases hr
        · rw [if_neg hd] at hr
          cases hr
          simp [List.isEmpty_iff]
  · intro hf
    have hmi : MeshValidator.get_mesh_info g m = .error .typeErr := by
      unfold MeshValidator.get_mesh_info
      rw [if_pos (by simp [hf])]
    unfold MeshValidator.validate_mesh
    rw [hmi]
  · intro hb hf
    rcases hmi : MeshValidator.get_mesh_info g m with e | mi
    · exfalso
      unfold MeshValidator.get_mesh_info at hmi
      rw [if_neg (fun hc => hf (List.length_eq_zero.mp hc))] at hmi
      cases hmi
    · refine ⟨⟨⟨true, [], [], [], level, mi, 0⟩, m, m⟩, ?_, rfl, rfl⟩
      unfold MeshValidator.validate_mesh
      rw [hmi]
      dsimp only
      rw [if_pos hb]

/-- Witness for C9 (amended): the empty mesh at STANDARD raises `TypeError`,
and a concrete triangle at BASIC yields a valid report with no issues. -/
theorem validate_is_valid_iff_issues_empty_witness :
    MeshValidator.validate_mesh trivGeo .standard (⟨[], []⟩ : Mesh)
      = .error .typeErr ∧
    (∃ r, MeshValidator.validate_mesh trivGeo .basic cexMeshA = .ok r ∧
      r.report.issues = [] ∧ r.report.is_valid = true) :=
  ⟨(validate_is_valid_iff_issues_empty trivGeo .standard ⟨[], []⟩).2.1 rfl,
   (validate_is_valid_iff_issues_empty trivGeo .basic cexMeshA).2.2 rfl (by decide)⟩

/-- Counterexample for C9 as stated: at BASIC the empty mesh does NOT yield a
valid report — `mesh.bounds` is `None` for a face-less mesh, so
`_get_mesh_info` (geometry.py:299) raises `TypeError` and `validate_mesh`
returns no report at all. -/
theorem validate_is_valid_iff_issues_empty_counterexample :
    MeshValidator.validate_mesh trivGeo .basic (⟨[], []⟩ : Mesh)
      = .error .typeErr := rfl

/-- C2 (amended): whenever `validate_mesh` returns a report, the embedded
`mesh_info` describes the PRE-repair input mesh — it is exactly what
`_get_mesh_info` computes on the input, before any check or repair runs — and
outside STRICT the caller's mesh is never mutated. At STRICT the
degenerate-face repair never yields a report: `_remove_degenerate_faces`
returns trimesh `submesh`'s LIST of submeshes, and the duplicate-vertex scan
that follows raises `AttributeError`, so `validate_mesh` crashes whenever it
attempts that repair. -/
theorem validate_mesh_info_prerepair (g : GeoLib) (level : ValidationLevel) (m : Mesh) :
    (∀ r, MeshValidator.validate_mesh g level m = .ok r →
      MeshValidator.get_mesh_info g m = .ok r.report.mesh_info) ∧
    (∀ r, MeshValidator.validate_mesh g level m = .ok r → level ≠ .strict →
      r.callerMesh = m) ∧
    (m.faces ≠ [] → level = .strict → MeshValidator.find_degenerate_faces m ≠ [] →
      MeshValidator.validate_mesh g level m = .error .attributeErr) := by
  refine ⟨?_, ?_, ?_⟩
  · intro r hr
    rcases hmi : MeshValidator.get_mesh_info g m with e | mi
    · unfold MeshValidator.validate_mesh at hr
      rw [hmi] at hr
      cases hr
    · unfold MeshValidator.validate_mesh at hr
      rw [hmi] at hr
      dsimp only at hr
      by_cases hb : level = .basic
      · rw [if_pos hb] at hr
        cases hr
        rfl
      · rw [if_neg hb] at hr
        by_cases hd : (!(MeshValidator.find_degenerate_faces m).isEmpty &&
            decide (level = .strict)) = true
        · rw [if_pos hd] at hr
          cases hr
        · rw [if_neg hd] at hr
          cases hr
          rfl
  · intro r hr hst
    have hdec : decide (level = .strict) = false := by simp [hst]
    rcases hmi : MeshValidator.get_mesh_info g m with e | mi
    · unfold MeshValidator.validate_mesh at hr
      rw [hmi] at hr
      cases hr
    · unfold MeshValidator.validate_mesh at hr
      rw [hmi] at hr
      dsimp only at hr
      by_cases hb : level = .basic
      · rw [if_pos hb] at hr
        cases hr
        rfl
      · rw [if_neg hb, hdec] at hr
        simp only [Bool.and_false, Bool.false_eq_true, if_false, Bool.false_and,
          Bool.and_true] at hr
        cases hr
        simp
  · intro hf hst hd
    subst hst
    rcases hmi : MeshValidator.get_mesh_info g m with e | mi
    · exfalso
      unfold MeshValidator.get_mesh_info at hmi
      rw [if_neg (fun hc => hf (List.length_eq_zero.mp hc))] at hmi
      cases hmi
    · unfold MeshValidator.validate_mesh
      rw [hmi]
      dsimp only
      rw [if_neg (by decide)]
      rw [if_pos (by simp [List.isEmpty_iff, hd])]

/-- Witness for C2 (amended): validating a concrete triangle at BASIC returns
a report whose `mesh_info` is `_get_mesh_info`'s answer on the input, with
the caller's mesh untouched. -/
theorem validate_mesh_info_prerepair_witness :
    MeshValidator.get_mesh_info trivGeo cexMeshA
      = .ok cexBasicResult.report.mesh_info ∧
    cexBasicResult.callerMesh = cexMeshA :=
  ⟨(validate_mesh_info_prerepair trivGeo .basic cexMeshA).1 cexBasicResult rfl,
   (validate_mesh_info_prerepair trivGeo .basic cexMeshA).2.1 cexBasicResult rfl
     (by decide)⟩

/-- Counterexample for C2 as stated: at STRICT on a mesh with one degenerate
face, the repair path does not produce a report reflecting a repaired working
copy — `submesh` returns a list of submeshes, the following duplicate-vertex
scan raises `AttributeError`, and `validate_mesh` returns an error instead of
any `ValidationReport`. -/
theorem validate_mesh_info_counterexample :
    MeshValidator.find_degenerate_faces cexDegenMesh = [1] ∧
    MeshValidator.validate_mesh trivGeo .strict cexDegenMesh
      = .error .attributeErr := by
  have hb1 : ¬ (faceCrossSq cexDegenMesh (0, 1, 2) < degenEpsSqCross) := by
    norm_num [faceCrossSq, cross, vsub, vadd, vneg, normSq, Mesh.vertexAt, cexDegenMesh,
      degenEpsSqCross]
  have hb2 : faceCrossSq cexDegenMesh (0, 0, 1) < degenEpsSqCross := by
    norm_num [faceCrossSq, cross, vsub, vadd, vneg, normSq, Mesh.vertexAt, cexDegenMesh,
      degenEpsSqCross]
  have hfaces : cexDegenMesh.faces = [(0, 1, 2), (0, 0, 1)] := rfl
  have hdeg : MeshValidator.find_degenerate_faces cexDegenMesh = [1] := by
    simp [MeshValidator.find_degenerate_faces, hfaces, List.enum, List.enumFrom, hb1, hb2]
  refine ⟨hdeg, ?_⟩
  rcases hmi : MeshValidator.get_mesh_info trivGeo cexDegenMesh with e | mi
  · exfalso
    unfold MeshValidator.get_mesh_info at hmi
    rw [if_neg (by decide : ¬ cexDegenMesh.faces.length = 0)] at hmi
    cases hmi
  · unfold MeshValidator.validate_mesh
    rw [hmi]
    dsimp only
    rw [if_neg (by decide)]
    rw [if_pos (by simp [hdeg])]

/-- C3 (amended): with the advanced library (Open3D) available, pairing a
step with an algorithm outside its permitted set makes `process` fail with
the taxonomy's UnsupportedAlgorithmError (the source's `ValueError`). The
trimesh fallback path does not perform this check. -/
theorem unsupported_algorithm_open3d_only (g : GeoLib) (config : PipelineStepConfig)
    (m : Mesh) :
    (config.algorithm ∉ decimateAlgorithms →
      DecimateProcessor.process true g config m
        = .error (.unsupportedAlgorithm .decimate config.algorithm)) ∧
    (config.algorithm ∉ denoiseAlgorithms →
      DenoiseProcessor.process true g config m
        = .error (.unsupportedAlgorithm .denoise config.algorithm)) := by
  constructor
  · intro h
    simp [DecimateProcessor.process, h]
  · intro h
    simp [DenoiseProcessor.process, h]

/-- Witness for C3 (amended): a hole-filling algorithm on Decimate and on
Denoise steps, with Open3D available, both raise. -/
theorem unsupported_algorithm_open3d_only_witness :
    DecimateProcessor.process true trivGeo cexPoissonDecimate cexMeshA
      = .error (.unsupportedAlgorithm .decimate .poisson_reconstruction) ∧
    DenoiseProcessor.process true trivGeo cexPoissonDenoise cexMeshA
      = .error (.unsupportedAlgorithm .denoise .poisson_reconstruction) :=
  ⟨(unsupported_algorithm_open3d_only trivGeo cexPoissonDecimate cexMeshA).1 (by decide),
   (unsupported_algorithm_open3d_only trivGeo cexPoissonDenoise cexMeshA).2 (by decide)⟩

/-- Counterexample for C3 as stated: without Open3D, the same unsupported
pairings do NOT raise — the trimesh fallbacks return a result normally. -/
theorem unsupported_algorithm_fallback_counterexample :
    exceptOk (DecimateProcessor.process false trivGeo cexPoissonDecimate cexMeshA) = true ∧
    exceptOk (DenoiseProcessor.process false trivGeo cexPoissonDenoise cexMeshA) = true := by
  have hall : cexMeshA.faces.all (fun f => faceCrossSq cexMeshA f > degenEpsSqCross)
      = true := by
    simp only [cexMeshA, List.all_cons, List.all_nil, Bool.and_true, decide_eq_true_eq]
    norm_num [faceCrossSq, cross, vsub, vadd, vneg, normSq, Mesh.vertexAt, degenEpsSqCross]
  have hfb : DenoiseProcessor.trimesh_denoise_fallback trivGeo cexMeshA = .ok cexMeshA := by
    unfold DenoiseProcessor.trimesh_denoise_fallback
    simp only [trivGeo, Bool.false_eq_true, if_false, hall, if_true]
  refine ⟨rfl, ?_⟩
  simp only [DenoiseProcessor.process, Bool.false_eq_true, if_false, hfb, exceptOk]

/-- C5: `PipelineCache.get` returns none and bumps `miss_count` exactly when
the metadata file is absent, the blob is absent, or the age measured from
`created_at` exceeds the TTL; TTL expiry also deletes both files; otherwise
it bumps `hit_count` and returns the entry with updated access time/count. -/
theorem cache_get_contract (c : PipelineCache) (now : ℚ) (key : String) :
    ((PipelineCache.get now key c).1 = none ↔
      (c.files.meta key = none ∨ c.files.blob key = none ∨
        (∃ md, c.files.meta key = some md ∧ now - md.created_at > c.ttl_seconds))) ∧
    ((PipelineCache.get now key c).1 = none →
      (PipelineCache.get now key c).2.miss_count = c.miss_count + 1 ∧
      (PipelineCache.get now key c).2.hit_count = c.hit_count) ∧
    (∀ md b, c.files.meta key = some md → c.files.blob key = some b →
      now - md.created_at > c.ttl_seconds →
      (PipelineCache.get now key c).2.files.meta key = none ∧
      (PipelineCache.get now key c).2.files.blob key = none) ∧
    (∀ md b, c.files.meta key = some md → c.files.blob key = some b →
      ¬(now - md.created_at > c.ttl_seconds) →
      (PipelineCache.get now key c).1 = some
        { content_hash := key, meshVal := b, step_name := md.step_name
          parameters := md.parameters, metrics := md.metrics
          created_at := md.created_at, accessed_at := now
          access_count := md.access_count + 1 } ∧
      (PipelineCache.get now key c).2.hit_count = c.hit_count + 1 ∧
      (PipelineCache.get now key c).2.miss_count = c.miss_count ∧
      (PipelineCache.get now key c).2.files = c.files) := by
  refine ⟨?_, ?_, ?_, ?_⟩
  · rcases hm : c.files.meta key with _ | md
    · simp [PipelineCache.get, hm]
    · rcases hb : c.files.blob key with _ | b
      · simp [PipelineCache.get, hm, hb]
      · by_cases hexp : now - md.created_at > c.ttl_seconds
        · unfold PipelineCache.get
          rw [hm, hb]
          dsimp only
          rw [if_pos hexp]
          simp
          exact hexp
        · unfold PipelineCache.get
          rw [hm, hb]
          dsimp only
          rw [if_neg hexp]
          simp
          linarith [not_lt.mp hexp]
  · intro hnone
    rcases hm : c.files.meta key with _ | md
    · unfold PipelineCache.get
      rw [hm]
      exact ⟨rfl, rfl⟩
    · rcases hb : c.files.blob key with _ | b
      · unfold PipelineCache.get
        rw [hm, hb]
        exact ⟨rfl, rfl⟩
      · by_cases hexp : now - md.created_at > c.ttl_seconds
        · unfold PipelineCache.get
          rw [hm, hb]
          dsimp only
          rw [if_pos hexp]
          exact ⟨rfl, rfl⟩
        · unfold PipelineCache.get at hnone
          rw [hm, hb] at hnone
          dsimp only at hnone
          rw [if_neg hexp] at hnone
          cases hnone
  · intro md b hm hb hexp
    unfold PipelineCache.get
    rw [hm, hb]
    dsimp only
    rw [if_pos hexp]
    constructor <;> simp [PipelineCache.remove_entry]
  · intro md b hm hb hexp
    unfold PipelineCache.get
    rw [hm, hb]
    dsimp only
    rw [if_neg hexp]
    exact ⟨rfl, rfl, rfl, rfl⟩

/-- Witness for C5: a valid entry at time 0 with a 86400-second TTL is a hit
with updated access statistics. -/
theorem cache_get_contract_witness :
    (PipelineCache.get 0 "k1" cexCache).1 = some
      { content_hash := "k1", meshVal := cexMeshA, step_name := cexMeta.step_name
        parameters := cexMeta.parameters, metrics := cexMeta.metrics
        created_at := cexMeta.created_at, accessed_at := 0
        access_count := cexMeta.access_count + 1 } ∧
    (PipelineCache.get 0 "k1" cexCache).2.hit_count = cexCache.hit_count + 1 ∧
    (PipelineCache.get 0 "k1" cexCache).2.miss_count = cexCache.miss_count ∧
    (PipelineCache.get 0 "k1" cexCache).2.files = cexCache.files :=
  (cache_get_contract cexCache 0 "k1").2.2.2 cexMeta cexMeshA rfl rfl
    (by norm_num [cexMeta, cexCache])

/-- C10: `put` is total (the source catches and only logs both write
failures) and never touches the hit/miss counters, so a pipeline run is
never aborted by a cache-store error; and an entry of which only one of the
two files got written is observed by a later `get` only as a miss. -/
theorem cache_put_total_partial_miss (c : PipelineCache) (now : ℚ) (key : String)
    (mesh : Mesh) (sname : String) (ps : Params) (met : PipelineMetrics)
    (ef mf : Bool) :
    ((PipelineCache.put now key mesh sname ps met ef mf c).hit_count = c.hit_count ∧
     (PipelineCache.put now key mesh sname ps met ef mf c).miss_count = c.miss_count ∧
     (PipelineCache.put now key mesh sname ps met ef mf c).ttl_seconds = c.ttl_seconds) ∧
    (mf = true → c.files.meta key = none → ∀ now2,
      (PipelineCache.get now2 key (PipelineCache.put now key mesh sname ps met ef mf c)).1
        = none ∧
      (PipelineCache.get now2 key (PipelineCache.put now key mesh sname ps met ef mf c)).2.miss_count
        = c.miss_count + 1) ∧
    (ef = true → c.files.blob key = none → ∀ now2,
      (PipelineCache.get now2 key (PipelineCache.put now key mesh sname ps met ef mf c)).1
        = none ∧
      (PipelineCache.get now2 key (PipelineCache.put now key mesh sname ps met ef mf c)).2.miss_count
        = c.miss_count + 1) := by
  refine ⟨?_, ?_, ?_⟩
  · rcases ef <;> rcases mf <;> simp [PipelineCache.put]
  · intro hmf hmeta now2
    subst hmf
    have hput : (PipelineCache.put now key mesh sname ps met ef true c).files.meta key
        = none := by
      rcases ef <;> simp [PipelineCache.put, hmeta]
    have hmiss : (PipelineCache.put now key mesh sname ps met ef true c).miss_count
        = c.miss_count := by
      rcases ef <;> simp [PipelineCache.put]
    constructor
    · unfold PipelineCache.get
      rw [hput]
    · unfold PipelineCache.get
      rw [hput]
      dsimp only
      rw [hmiss]
  · intro hef hblob now2
    subst hef
    have hputs : PipelineCache.put now key mesh sname ps met true mf c = c := by
      simp [PipelineCache.put]
    rw [hputs]
    rcases hm2 : c.files.meta key with _ | md2
    · constructor
      · unfold PipelineCache.get
        rw [hm2]
      · unfold PipelineCache.get
        rw [hm2]
    · constructor
      · unfold PipelineCache.get
        rw [hm2, hblob]
      · unfold PipelineCache.get
        rw [hm2, hblob]

/-- Witness for C10: a metadata-write failure on a fresh cache leaves a later
lookup of the key a miss. -/
theorem cache_put_total_partial_miss_witness :
    (PipelineCache.get 0 "k" (PipelineCache.put 0 "k" cexMeshA "s" []
      (mkMetrics cexMeshA cexMeshA) false true (PipelineCache.init 24))).1 = none ∧
    (PipelineCache.get 0 "k" (PipelineCache.put 0 "k" cexMeshA "s" []
      (mkMetrics cexMeshA cexMeshA) false true (PipelineCache.init 24))).2.miss_count
      = (PipelineCache.init 24).miss_count + 1 :=
  (cache_put_total_partial_miss (PipelineCache.init 24) 0 "k" cexMeshA "s" []
    (mkMetrics cexMeshA cexMeshA) false true).2.1 rfl rfl 0

/-- Sum of a list mapped with a constant shift. -/
theorem sum_map_shift {α : Type} (l : List α) (f : α → ℚ) (c : ℚ) :
    (l.map (fun x => f x + c)).sum = (l.map f).sum + l.length * c := by
  induction l with
  | nil => simp
  | cons a t ih =>
    simp [ih]
    ring

/-- Sum of a list mapped with a constant factor. -/
theorem sum_map_smul {α : Type} (l : List α) (f : α → ℚ) (k : ℚ) :
    (l.map (fun x => k * f x)).sum = k * (l.map f).sum := by
  induction l with
  | nil => simp
  | cons a t ih =>
    simp [ih]
    ring

/-- The vertex mean is translation-equivariant on nonempty meshes. -/
theorem vmean_translate (v : Vec3) (m : Mesh) (h : m.vertices ≠ []) :
    vmean (translateMesh v m) = vadd (vmean m) v := by
  have hn : ((m.vertices.length : ℚ)) ≠ 0 := by simpa using h
  unfold vmean translateMesh
  simp only [List.map_map, List.length_map, Function.comp_def, vadd, Prod.mk.injEq]
  refine ⟨?_, ?_, ?_⟩
  · rw [sum_map_shift m.vertices (fun p => p.1) v.1]
    field_simp
    ring
  · rw [sum_map_shift m.vertices (fun p => p.2.1) v.2.1]
    field_simp
    ring
  · rw [sum_map_shift m.vertices (fun p => p.2.2) v.2.2]
    field_simp
    ring

/-- The vertex mean is homogeneous under uniform scaling. -/
theorem vmean_scale (k : ℚ) (m : Mesh) :
    vmean (scaleMesh k m) = vsmul k (vmean m) := by
  unfold vmean scaleMesh
  simp only [List.map_map, List.length_map, Function.comp_def, vsmul, Prod.mk.injEq]
  refine ⟨?_, ?_, ?_⟩
  · rw [sum_map_smul m.vertices (fun p => p.1) k]
    rw [mul_div_assoc]
  · rw [sum_map_smul m.vertices (fun p => p.2.1) k]
    rw [mul_div_assoc]
  · rw [sum_map_smul m.vertices (fun p => p.2.2) k]
    rw [mul_div_assoc]

/-- C7: for every nonempty mesh — in particular every mesh with positive
bounding-box extent — and any input translation, `normalize_mesh` produces a
mesh whose center of mass is exactly the origin (hence within 1e-6 on every
axis), provided the library's center-of-mass is translation-equivariant and
scale-homogeneous; the caller's input mesh is returned unchanged in
`original` (the source copies on entry). -/
theorem normalize_mesh_centers (cm : Mesh → Vec3) (bounds : Mesh → Vec3 × Vec3)
    (target_scale : ℚ) (target_units : String) (units : Option String) (m : Mesh)
    (hne : m.vertices ≠ [])
    (hT : ∀ v m2, m2.vertices ≠ [] → cm (translateMesh v m2) = vadd (cm m2) v)
    (hS : ∀ k m2, m2.vertices ≠ [] → cm (scaleMesh k m2) = vsmul k (cm m2)) :
    (MeshNormalizer.normalize_mesh cm bounds target_scale target_units units m).original = m ∧
    cm (MeshNormalizer.normalize_mesh cm bounds target_scale target_units units m).result
      = (0, 0, 0) ∧
    |(cm (MeshNormalizer.normalize_mesh cm bounds target_scale target_units units m).result).1|
      ≤ 1 / 1000000 ∧
    |(cm (MeshNormalizer.normalize_mesh cm bounds target_scale target_units units m).result).2.1|
      ≤ 1 / 1000000 ∧
    |(cm (MeshNormalizer.normalize_mesh cm bounds target_scale target_units units m).result).2.2|
      ≤ 1 / 1000000 := by
  have hzero : ∀ m1 : Mesh, m1.vertices ≠ [] →
      cm (if 0 < extent (bounds (translateMesh (vneg (cm m1)) m1))
          then scaleMesh (target_scale / extent (bounds (translateMesh (vneg (cm m1)) m1)))
                 (translateMesh (vneg (cm m1)) m1)
          else translateMesh (vneg (cm m1)) m1) = (0, 0, 0) := by
    intro m1 h1
    have h2 : (translateMesh (vneg (cm m1)) m1).vertices ≠ [] := by
      simp [translateMesh, h1]
    have hcm2 : cm (translateMesh (vneg (cm m1)) m1) = (0, 0, 0) := by
      rw [hT _ _ h1]
      rcases cm m1 with ⟨a, b, c⟩
      simp [vadd, vneg]
    by_cases hsc : 0 < extent (bounds (translateMesh (vneg (cm m1)) m1))
    · rw [if_pos hsc, hS _ _ h2, hcm2]
      simp [vsmul]
    · rw [if_neg hsc]
      exact hcm2
  have hres : cm (MeshNormalizer.normalize_mesh cm bounds target_scale target_units units m).result
      = (0, 0, 0) := by
    unfold MeshNormalizer.normalize_mesh
    rcases units with _ | u
    · exact hzero m hne
    · dsimp only
      by_cases hu : u ≠ target_units
      · rw [if_pos hu]
        refine hzero (scaleMesh (MeshNormalizer.get_scale_factor u target_units) m) ?_
        simp [scaleMesh, hne]
      · rw [if_neg hu]
        exact hzero m hne
  refine ⟨rfl, hres, ?_, ?_, ?_⟩ <;>
  · rw [hres]
    norm_num

/-- Witness for C7: the translated tetrahedron is centered by
`normalize_mesh` when the center of mass is the vertex mean. -/
theorem normalize_mesh_centers_witness :
    (MeshNormalizer.normalize_mesh vmean boundsOf 1 "mm" none cexTetra).original = cexTetra ∧
    vmean (MeshNormalizer.normalize_mesh vmean boundsOf 1 "mm" none cexTetra).result
      = (0, 0, 0) ∧
    |(vmean (MeshNormalizer.normalize_mesh vmean boundsOf 1 "mm" none cexTetra).result).1|
      ≤ 1 / 1000000 ∧
    |(vmean (MeshNormalizer.normalize_mesh vmean boundsOf 1 "mm" none cexTetra).result).2.1|
      ≤ 1 / 1000000 ∧
    |(vmean (MeshNormalizer.normalize_mesh vmean boundsOf 1 "mm" none cexTetra).result).2.2|
      ≤ 1 / 1000000 :=
  normalize_mesh_centers vmean boundsOf 1 "mm" none cexTetra (by decide)
    (fun v m2 h => vmean_translate v m2 h) (fun k m2 _ => vmean_scale k m2)

/-- Running `runSteps` over an empty step list returns the state unchanged. -/
theorem runSteps_nil (o3d : Bool) (g : GeoLib) (pce : Bool) (input : Mesh) (t : ℚ)
    (st : PipelineState) : runSteps o3d g pce input t [] st = .ok st := rfl

/-- Unfolding one successful iteration of the step loop. -/
theorem runSteps_cons {o3d : Bool} {g : GeoLib} {pce : Bool} {input : Mesh} {t : ℚ}
    {sc : PipelineStepConfig} {rest : List PipelineStepConfig}
    {st st' : PipelineState}
    (h : runStep o3d g pce input t st sc = .ok st') :
    runSteps o3d g pce input t (sc :: rest) st = runSteps o3d g pce input t rest st' := by
  have h0 : runSteps o3d g pce input t (sc :: rest) st
      = (match runStep o3d g pce input t st sc with
         | .error e => .error e
         | .ok st1 => runSteps o3d g pce input t rest st1) := rfl
  rw [h0, h]

/-- A disabled step is a no-op. -/
theorem runStep_disabled {o3d : Bool} {g : GeoLib} {pce : Bool} {input : Mesh} {t : ℚ}
    {st : PipelineState} {sc : PipelineStepConfig} (h : sc.enabled = false) :
    runStep o3d g pce input t st sc = .ok st := by
  unfold runStep
  rw [h]
  simp only [reduceIte]

/-- A step with no implemented processor is a no-op. -/
theorem runStep_noproc {o3d : Bool} {g : GeoLib} {pce : Bool} {input : Mesh} {t : ℚ}
    {st : PipelineState} {sc : PipelineStepConfig} (hen : sc.enabled = true)
    (hp : initialize_processor o3d g sc = none) :
    runStep o3d g pce input t st sc = .ok st := by
  unfold runStep
  rw [hen, hp]
  rfl

/-- With caching off at either level, the step computes and records without
touching the cache. -/
theorem runStep_nocache {o3d : Bool} {g : GeoLib} {pce : Bool} {input : Mesh} {t : ℚ}
    {st : PipelineState} {sc : PipelineStepConfig} {p : StepProcessor}
    {m2 : Mesh} {met : PipelineMetrics} (hen : sc.enabled = true)
    (hp : initialize_processor o3d g sc = some p)
    (hce : (sc.cache_enabled && pce) = false)
    (hproc : p.proc st.current = .ok (m2, met)) :
    runStep o3d g pce input t st sc
      = .ok ⟨m2, st.all_metrics ++ [(sc.step.value, met)], st.cache⟩ := by
  unfold runStep
  simp only [hen, hp, hce, hproc, reduceIte]
  rfl

/-- A cache hit adopts the cached mesh and metrics. -/
theorem runStep_cachehit {o3d : Bool} {g : GeoLib} {pce : Bool} {input : Mesh} {t : ℚ}
    {st : PipelineState} {sc : PipelineStepConfig} {p : StepProcessor}
    {e : CacheEntry} {c1 : PipelineCache} (hen : sc.enabled = true)
    (hp : initialize_processor o3d g sc = some p)
    (hce : (sc.cache_enabled && pce) = true)
    (hget : PipelineCache.get t (p.cacheKey st.current) st.cache = (some e, c1)) :
    runStep o3d g pce input t st sc
      = .ok ⟨e.meshVal, st.all_metrics ++ [(sc.step.value, e.metrics)], c1⟩ := by
  unfold runStep
  simp only [hen, hp, hce, hget, reduceIte]
  rfl

/-- A cache miss computes, records, and stores under the key derived from
the pipeline's ORIGINAL input mesh. -/
theorem runStep_cachemiss {o3d : Bool} {g : GeoLib} {pce : Bool} {input : Mesh} {t : ℚ}
    {st : PipelineState} {sc : PipelineStepConfig} {p : StepProcessor}
    {c1 : PipelineCache} {m2 : Mesh} {met : PipelineMetrics} (hen : sc.enabled = true)
    (hp : initialize_processor o3d g sc = some p)
    (hce : (sc.cache_enabled && pce) = true)
    (hget : PipelineCache.get t (p.cacheKey st.current) st.cache = (none, c1))
    (hproc : p.proc st.current = .ok (m2, met)) :
    runStep o3d g pce input t st sc
      = .ok ⟨m2, st.all_metrics ++ [(sc.step.value, met)],
          PipelineCache.put t (p.cacheKey input) m2 sc.step.value sc.parameters met
            false false c1⟩ := by
  unfold runStep
  simp only [hen, hp, hce, hget, hproc, reduceIte]
  rfl

/-- A processor's cache key depends only on the mesh's vertex and face
counts. -/
theorem processor_key_counts (o3d : Bool) (g : GeoLib) (sc : PipelineStepConfig)
    (p : StepProcessor) (hp : initialize_processor o3d g sc = some p)
    (m1 m2 : Mesh) (hv : m1.vertices.length = m2.vertices.length)
    (hf : m1.faces.length = m2.faces.length) :
    p.cacheKey m1 = p.cacheKey m2 := by
  unfold initialize_processor at hp
  cases hsc : sc.step <;> rw [hsc] at hp <;> dsimp only at hp
  case denoise =>
    cases hp
    dsimp only
    unfold DenoiseProcessor.get_cache_key
    rw [hv, hf]
  case decimate =>
    cases hp
    dsimp only
    unfold DecimateProcessor.get_cache_key
    rw [hv, hf]
  all_goals cases hp

/-- The empty cache directory satisfies the run invariant. -/
theorem goodCache_empty (t : ℚ) (nv nf : ℕ) :
    GoodCache t nv nf { meta := fun _ => none, blob := fun _ => none } := by
  refine ⟨fun k => by simp, fun k md h => ?_, fun k b h => ?_⟩ <;> cases h

/-- Metadata store after a successful `put`. -/
theorem put_files_meta (now : ℚ) (key : String) (mesh : Mesh) (sn : String)
    (ps : Params) (met : PipelineMetrics) (c : PipelineCache) :
    (PipelineCache.put now key mesh sn ps met false false c).files.meta
      = fun k => if k = key then
          some { step_name := sn, parameters := ps, metrics := met
                 created_at := now, accessed_at := now, access_count := 1 }
        else c.files.meta k := rfl

/-- Blob store after a successful `put`. -/
theorem put_files_blob (now : ℚ) (key : String) (mesh : Mesh) (sn : String)
    (ps : Params) (met : PipelineMetrics) (c : PipelineCache) :
    (PipelineCache.put now key mesh sn ps met false false c).files.blob
      = fun k => if k = key then some mesh else c.files.blob k := rfl

/-- A successful `put` of a mesh with invariant counts at time `t` preserves
the run invariant. -/
theorem goodCache_put {t : ℚ} {nv nf : ℕ} {key : String} {mesh : Mesh} {sn : String}
    {ps : Params} {met : PipelineMetrics} {c : PipelineCache}
    (hg : GoodCache t nv nf c.files)
    (hv : mesh.vertices.length = nv) (hf : mesh.faces.length = nf) :
    GoodCache t nv nf (PipelineCache.put t key mesh sn ps met false false c).files := by
  obtain ⟨h1, h2, h3⟩ := hg
  refine ⟨?_, ?_, ?_⟩
  · intro k
    simp only [put_files_meta, put_files_blob]
    by_cases hk : k = key
    · simp [hk]
    · simp [hk, h1 k]
  · intro k md hmd
    simp only [put_files_meta] at hmd
    by_cases hk : k = key
    · rw [if_pos hk] at hmd
      cases hmd
      rfl
    · rw [if_neg hk] at hmd
      exact h2 k md hmd
  · intro k b hb
    simp only [put_files_blob] at hb
    by_cases hk : k = key
    · rw [if_pos hk] at hb
      cases hb
      exact ⟨hv, hf⟩
    · rw [if_neg hk] at hb
      exact h3 k b hb

/-- A `put` at a key that held no files extends the store. -/
theorem filesLe_put {now : ℚ} {key : String} {mesh : Mesh} {sn : String}
    {ps : Params} {met : PipelineMetrics} {c : PipelineCache}
    (hmeta : c.files.meta key = none) (hblob : c.files.blob key = none) :
    FilesLe c.files (PipelineCache.put now key mesh sn ps met false false c).files := by
  constructor
  · intro k v hv
    simp only [put_files_meta]
    by_cases hk : k = key
    · subst hk
      rw [hmeta] at hv
      cases hv
    · rw [if_neg hk]
      exact hv
  · intro k b hb
    simp only [put_files_blob]
    by_cases hk : k = key
    · subst hk
      rw [hblob] at hb
      cases hb
    · rw [if_neg hk]
      exact hb

/-- Core replay lemma for C1: a run over steps whose processors succeed and
preserve the input's vertex/face counts, starting from an invariant cache,
succeeds; and re-running the same steps from the same mesh against any cache
extending the first run's final file store is an all-hit run — it returns the
same mesh, leaves the file store untouched, adds exactly the number of
cache-interacting steps to `hit_count`, and leaves `miss_count` unchanged. -/
theorem runSteps_replay (o3d : Bool) (g : GeoLib) (pce : Bool) (input : Mesh) (t : ℚ)
    (nv nf : ℕ) (hiv : input.vertices.length = nv) (hif : input.faces.length = nf) :
    ∀ (scs : List PipelineStepConfig),
    (∀ sc ∈ scs, sc.enabled = true → StepOk o3d g nv nf sc) →
    ∀ (st : PipelineState),
      st.current.vertices.length = nv → st.current.faces.length = nf →
      GoodCache t nv nf st.cache.files → 0 ≤ st.cache.ttl_seconds →
      ∃ st1, runSteps o3d g pce input t scs st = .ok st1 ∧
        st1.current.vertices.length = nv ∧ st1.current.faces.length = nf ∧
        GoodCache t nv nf st1.cache.files ∧
        FilesLe st.cache.files st1.cache.files ∧
        st1.cache.ttl_seconds = st.cache.ttl_seconds ∧
        ∀ (D : PipelineCache) (mets2 : List (String × PipelineMetrics)),
          FilesLe st1.cache.files D.files → GoodCache t nv nf D.files →
          D.ttl_seconds = st.cache.ttl_seconds →
          ∃ mets3,
            runSteps o3d g pce input t scs ⟨st.current, mets2, D⟩
              = .ok ⟨st1.current, mets3,
                  ⟨D.files, D.ttl_seconds,
                   D.hit_count + cachedCount o3d g pce scs, D.miss_count⟩⟩ := by
  intro scs
  induction scs with
  | nil =>
    intro hok st hcv hcf hgc httl
    refine ⟨st, rfl, hcv, hcf, hgc, filesLe_refl _, rfl, ?_⟩
    intro D mets2 hDle hDg hDt
    exact ⟨mets2, rfl⟩
  | cons sc rest ih =>
    intro hok st hcv hcf hgc httl
    have hokr : ∀ s ∈ rest, s.enabled = true → StepOk o3d g nv nf s :=
      fun s hs => hok s (List.mem_cons_of_mem _ hs)
    cases hen : sc.enabled with
    | false =>
      have hcc : cachedCount o3d g pce (sc :: rest) = cachedCount o3d g pce rest := by
        simp [cachedCount, hen]
      obtain ⟨st1, h1, hv1, hf1, hg1, hle1, htl1, hrep1⟩ := ih hokr st hcv hcf hgc httl
      refine ⟨st1, ?_, hv1, hf1, hg1, hle1, htl1, ?_⟩
      · rw [runSteps_cons (runStep_disabled hen)]
        exact h1
      · intro D mets2 hDle hDg hDt
        obtain ⟨mets3, hr⟩ := hrep1 D mets2 hDle hDg hDt
        refine ⟨mets3, ?_⟩
        rw [runSteps_cons (runStep_disabled hen), hcc]
        exact hr
    | true =>
      have hokc : StepOk o3d g nv nf sc := hok sc (List.mem_cons_self _ _) hen
      cases hip : initialize_processor o3d g sc with
      | none =>
        have hcc : cachedCount o3d g pce (sc :: rest) = cachedCount o3d g pce rest := by
          simp [cachedCount, hip]
        obtain ⟨st1, h1, hv1, hf1, hg1, hle1, htl1, hrep1⟩ := ih hokr st hcv hcf hgc httl
        refine ⟨st1, ?_, hv1, hf1, hg1, hle1, htl1, ?_⟩
        · rw [runSteps_cons (runStep_noproc hen hip)]
          exact h1
        · intro D mets2 hDle hDg hDt
          obtain ⟨mets3, hr⟩ := hrep1 D mets2 hDle hDg hDt
          refine ⟨mets3, ?_⟩
          rw [runSteps_cons (runStep_noproc hen hip), hcc]
          exact hr
      | some p =>
        cases hce : sc.cache_enabled && pce with
        | false =>
          obtain ⟨m2, met, hproc, hm2v, hm2f⟩ := hokc p hip st.current hcv hcf
          have hcc : cachedCount o3d g pce (sc :: rest) = cachedCount o3d g pce rest := by
            simp [cachedCount, hce]
          obtain ⟨st1, h1, hv1, hf1, hg1, hle1, htl1, hrep1⟩ :=
            ih hokr ⟨m2, st.all_metrics ++ [(sc.step.value, met)], st.cache⟩ hm2v hm2f hgc httl
          refine ⟨st1, ?_, hv1, hf1, hg1, hle1, htl1, ?_⟩
          · rw [runSteps_cons (runStep_nocache hen hip hce hproc)]
            exact h1
          · intro D mets2 hDle hDg hDt
            obtain ⟨mets3, hr⟩ := hrep1 D (mets2 ++ [(sc.step.value, met)]) hDle hDg hDt
            refine ⟨mets3, ?_⟩
            have hstep2 : runStep o3d g pce input t ⟨st.current, mets2, D⟩ sc
                = .ok ⟨m2, mets2 ++ [(sc.step.value, met)], D⟩ :=
              runStep_nocache hen hip hce hproc
            rw [runSteps_cons hstep2, hcc]
            exact hr
        | true =>
          have hcc : cachedCount o3d g pce (sc :: rest)
              = cachedCount o3d g pce rest + 1 := by
            simp [cachedCount, hen, hce, hip]
          rcases hm : st.cache.files.meta (p.cacheKey st.current) with _ | md
          · -- forward run misses, computes and stores under the same key
            have hbn : st.cache.files.blob (p.cacheKey st.current) = none := by
              have hiff := hgc.1 (p.cacheKey st.current)
              rw [hm] at hiff
              simp at hiff
              exact Option.not_isSome_iff_eq_none.mp (by simp [hiff])
            have hget : PipelineCache.get t (p.cacheKey st.current) st.cache
                = (none, { st.cache with miss_count := st.cache.miss_count + 1 }) := by
              unfold PipelineCache.get
              rw [hm]
            obtain ⟨m2, met, hproc, hm2v, hm2f⟩ := hokc p hip st.current hcv hcf
            have hkeq : p.cacheKey input = p.cacheKey st.current :=
              processor_key_counts o3d g sc p hip input st.current
                (by rw [hiv, hcv]) (by rw [hif, hcf])
            have hstep : runStep o3d g pce input t st sc
                = .ok ⟨m2, st.all_metrics ++ [(sc.step.value, met)],
                    PipelineCache.put t (p.cacheKey st.current) m2 sc.step.value
                      sc.parameters met false false
                      { st.cache with miss_count := st.cache.miss_count + 1 }⟩ := by
              have h0 := @runStep_cachemiss o3d g pce input t st sc p _ m2 met
                hen hip hce hget hproc
              rw [hkeq] at h0
              exact h0
            have hg2 : GoodCache t nv nf
                (PipelineCache.put t (p.cacheKey st.current) m2 sc.step.value
                  sc.parameters met false false
                  { st.cache with miss_count := st.cache.miss_count + 1 }).files :=
              goodCache_put hgc hm2v hm2f
            obtain ⟨st1, h1, hv1, hf1, hg1, hle1, htl1, hrep1⟩ :=
              ih hokr ⟨m2, st.all_metrics ++ [(sc.step.value, met)],
                PipelineCache.put t (p.cacheKey st.current) m2 sc.step.value
                  sc.parameters met false false
                  { st.cache with miss_count := st.cache.miss_count + 1 }⟩
                hm2v hm2f hg2 httl
            have hleput : FilesLe st.cache.files
                (PipelineCache.put t (p.cacheKey st.current) m2 sc.step.value
                  sc.parameters met false false
                  { st.cache with miss_count := st.cache.miss_count + 1 }).files :=
              filesLe_put hm hbn
            refine ⟨st1, ?_, hv1, hf1, hg1, filesLe_trans hleput hle1, htl1, ?_⟩
            · rw [runSteps_cons hstep]
              exact h1
            · intro D mets2 hDle hDg hDt
              have hDm : D.files.meta (p.cacheKey st.current)
                  = some { step_name := sc.step.value, parameters := sc.parameters
                           metrics := met, created_at := t, accessed_at := t
                           access_count := 1 } := by
                apply hDle.1
                apply hle1.1
                rw [put_files_meta]
                simp
              have hDb : D.files.blob (p.cacheKey st.current) = some m2 := by
                apply hDle.2
                apply hle1.2
                rw [put_files_blob]
                simp
              have hnx : ¬ (t - (t : ℚ) > D.ttl_seconds) := by
                rw [hDt, sub_self]
                exact not_lt.mpr httl
              have hgetD : PipelineCache.get t (p.cacheKey st.current) D
                  = (some ({ content_hash := p.cacheKey st.current, meshVal := m2
                             step_name := sc.step.value, parameters := sc.parameters
                             metrics := met, created_at := t, accessed_at := t
                             access_count := 2 } : CacheEntry),
                     { D with hit_count := D.hit_count + 1 }) := by
                unfold PipelineCache.get
                rw [hDm, hDb]
                dsimp only
                rw [if_neg hnx]
                rfl
              have hstep2 : runStep o3d g pce input t ⟨st.current, mets2, D⟩ sc
                  = .ok ⟨m2, mets2 ++ [(sc.step.value, met)],
                      { D with hit_count := D.hit_count + 1 }⟩ :=
                runStep_cachehit hen hip hce hgetD
              obtain ⟨mets3, hr⟩ := hrep1 { D with hit_count := D.hit_count + 1 }
                (mets2 ++ [(sc.step.value, met)]) hDle hDg hDt
              refine ⟨mets3, ?_⟩
              rw [runSteps_cons hstep2, hcc]
              have harith : D.hit_count + (cachedCount o3d g pce rest + 1)
                  = (D.hit_count + 1) + cachedCount o3d g pce rest := by omega
              rw [harith]
              exact hr
          · -- forward run hits an existing invariant entry
            have hbs : ∃ b, st.cache.files.blob (p.cacheKey st.current) = some b := by
              have hiff := hgc.1 (p.cacheKey st.current)
              rw [hm] at hiff
              simp at hiff
              exact Option.isSome_iff_exists.mp hiff
            obtain ⟨b, hb⟩ := hbs
            have hct : md.created_at = t := hgc.2.1 _ md hm
            obtain ⟨hbv, hbf⟩ := hgc.2.2 _ b hb
            have hnx : ¬ (t - md.created_at > st.cache.ttl_seconds) := by
              rw [hct, sub_self]
              exact not_lt.mpr httl
            have hget : PipelineCache.get t (p.cacheKey st.current) st.cache
                = (some ({ content_hash := p.cacheKey st.current, meshVal := b
                           step_name := md.step_name, parameters := md.parameters
                           metrics := md.metrics, created_at := md.created_at
                           accessed_at := t, access_count := md.access_count + 1 }
                    : CacheEntry),
                   { st.cache with hit_count := st.cache.hit_count + 1 }) := by
              unfold PipelineCache.get
              rw [hm, hb]
              dsimp only
              rw [if_neg hnx]
              rfl
            have hstep : runStep o3d g pce input t st sc
                = .ok ⟨b, st.all_metrics ++ [(sc.step.value, md.metrics)],
                    { st.cache with hit_count := st.cache.hit_count + 1 }⟩ :=
              runStep_cachehit hen hip hce hget
            obtain ⟨st1, h1, hv1, hf1, hg1, hle1, htl1, hrep1⟩ :=
              ih hokr ⟨b, st.all_metrics ++ [(sc.step.value, md.metrics)],
                { st.cache with hit_count := st.cache.hit_count + 1 }⟩ hbv hbf hgc httl
            refine ⟨st1, ?_, hv1, hf1, hg1, hle1, htl1, ?_⟩
            · rw [runSteps_cons hstep]
              exact h1
            · intro D mets2 hDle hDg hDt
              have hDm : D.files.meta (p.cacheKey st.current) = some md :=
                hDle.1 _ _ (hle1.1 _ _ hm)
              have hDb : D.files.blob (p.cacheKey st.current) = some b :=
                hDle.2 _ _ (hle1.2 _ _ hb)
              have hnxD : ¬ (t - md.created_at > D.ttl_seconds) := by
                rw [hct, hDt, sub_self]
                exact not_lt.mpr httl
              have hgetD : PipelineCache.get t (p.cacheKey st.current) D
                  = (some ({ content_hash := p.cacheKey st.current, meshVal := b
                             step_name := md.step_name, parameters := md.parameters
                             metrics := md.metrics, created_at := md.created_at
                             accessed_at := t, access_count := md.access_count + 1 }
                      : CacheEntry),
                     { D with hit_count := D.hit_count + 1 }) := by
                unfold PipelineCache.get
                rw [hDm, hDb]
                dsimp only
                rw [if_neg hnxD]
                rfl
              have hstep2 : runStep o3d g pce input t ⟨st.current, mets2, D⟩ sc
                  = .ok ⟨b, mets2 ++ [(sc.step.value, md.metrics)],
                      { D with hit_count := D.hit_count + 1 }⟩ :=
                runStep_cachehit hen hip hce hgetD
              obtain ⟨mets3, hr⟩ := hrep1 { D with hit_count := D.hit_count + 1 }
                (mets2 ++ [(sc.step.value, md.metrics)]) hDle hDg hDt
              refine ⟨mets3, ?_⟩
              rw [runSteps_cons hstep2, hcc]
              have harith : D.hit_count + (cachedCount o3d g pce rest + 1)
                  = (D.hit_count + 1) + cachedCount o3d g pce rest := by omega
              rw [harith]
              exact hr

/-- C1 (amended): for a pipeline with caching enabled, run twice in sequence
on the same mesh from a fresh cache, the second run's hit_count exceeds the
first run's, the miss_count is unchanged and the output meshes (hence their
vertex/face counts) are identical — PROVIDED every enabled implemented step's
processor succeeds and preserves the mesh's vertex/face counts, and at least
one step is enabled, cache-enabled and implemented. (Without count
preservation the claim fails, because the store key is derived from the
original input mesh while the lookup key is derived from the current mesh —
see the counterexample.) -/
theorem cache_idempotence_amended (o3d : Bool) (g : GeoLib) (cfg : PipelineConfig)
    (t : ℚ) (input : Mesh)
    (hok : ∀ sc ∈ cfg.steps, sc.enabled = true →
      StepOk o3d g input.vertices.length input.faces.length sc)
    (hsome : ∃ sc ∈ cfg.steps, sc.enabled = true ∧
      (sc.cache_enabled && cfg.cache_enabled) = true ∧
      (initialize_processor o3d g sc).isSome = true) :
    ∃ st1 st2,
      PreprocessingPipeline.process o3d g cfg t input
        (PipelineCache.init cfg.cache_ttl_hours) = .ok st1 ∧
      PreprocessingPipeline.process o3d g cfg t input st1.cache = .ok st2 ∧
      st1.cache.hit_count < st2.cache.hit_count ∧
      st2.cache.miss_count = st1.cache.miss_count ∧
      st2.current = st1.current ∧
      st2.current.vertices.length = st1.current.vertices.length ∧
      st2.current.faces.length = st1.current.faces.length := by
  have httl0 : (0:ℚ) ≤ (PipelineCache.init cfg.cache_ttl_hours).ttl_seconds := by
    unfold PipelineCache.init
    positivity
  obtain ⟨st1, h1, hv1, hf1, hg1, hle1, htl1, hrep1⟩ :=
    runSteps_replay o3d g cfg.cache_enabled input t input.vertices.length
      input.faces.length rfl rfl cfg.steps hok
      ⟨input, [], PipelineCache.init cfg.cache_ttl_hours⟩
      rfl rfl (goodCache_empty _ _ _) httl0
  obtain ⟨mets3, hr⟩ := hrep1 st1.cache [] (filesLe_refl _) hg1 htl1
  obtain ⟨sc, hsc, hscen, hsccache, hscsome⟩ := hsome
  have hmemf : sc ∈ cfg.steps.filter (fun sc =>
      sc.enabled && (sc.cache_enabled && cfg.cache_enabled) &&
        (initialize_processor o3d g sc).isSome) := by
    refine List.mem_filter.mpr ⟨hsc, ?_⟩
    simp [hscen, hsccache, hscsome]
  have hpos : 0 < cachedCount o3d g cfg.cache_enabled cfg.steps := by
    unfold cachedCount
    exact List.length_pos.mpr (List.ne_nil_of_mem hmemf)
  refine ⟨st1, ⟨st1.current, mets3,
    ⟨st1.cache.files, st1.cache.ttl_seconds,
     st1.cache.hit_count + cachedCount o3d g cfg.cache_enabled cfg.steps,
     st1.cache.miss_count⟩⟩, h1, hr, ?_, rfl, rfl, rfl, rfl⟩
  exact Nat.lt_add_of_pos_right hpos

/-- Witness for C1 (amended): a one-step denoise pipeline under identity
Open3D behaviour, run twice on a concrete triangle from a fresh cache. -/
theorem cache_idempotence_amended_witness :
    ∃ st1 st2,
      PreprocessingPipeline.process true trivGeo cfgSingleDenoise 0 cexMeshA
        (PipelineCache.init cfgSingleDenoise.cache_ttl_hours) = .ok st1 ∧
      PreprocessingPipeline.process true trivGeo cfgSingleDenoise 0 cexMeshA st1.cache
        = .ok st2 ∧
      st1.cache.hit_count < st2.cache.hit_count ∧
      st2.cache.miss_count = st1.cache.miss_count ∧
      st2.current = st1.current ∧
      st2.current.vertices.length = st1.current.vertices.length ∧
      st2.current.faces.length = st1.current.faces.length :=
  cache_idempotence_amended true trivGeo cfgSingleDenoise 0 cexMeshA
    (by
      intro sc hsc _
      simp only [cfgSingleDenoise, List.mem_singleton] at hsc
      subst hsc
      intro p hp m hv hf
      simp only [initialize_processor] at hp
      cases hp
      exact ⟨m, mkMetrics m m, rfl, hv, hf⟩)
    (by
      refine ⟨{ step := .denoise, algorithm := .bilateral_filter }, ?_, rfl, rfl, rfl⟩
      simp [cfgSingleDenoise])

/-- Counterexample for C1 as stated: the Decimate-then-Denoise pipeline
`cexPipeline` (caching enabled) on `cexMesh6`, run twice in sequence from a
fresh cache at the same instant, produces identical outputs and a higher
hit_count, but the second run's miss_count is 3 ≠ 2 — the miss_count is NOT
unchanged, because the denoise store key is computed from the original
6-vertex input while its lookup key is computed from the decimated 3-vertex
current mesh. -/
theorem cache_idempotence_counterexample :
    cexPipeline.cache_enabled = true ∧
    exceptOk cexRun1 = true ∧ exceptOk cexRun2 = true ∧
    cexState1.cache.hit_count = 0 ∧ cexState1.cache.miss_count = 2 ∧
    cexState2.cache.hit_count = 1 ∧ cexState2.cache.miss_count = 3 ∧
    cexState2.cache.miss_count ≠ cexState1.cache.miss_count ∧
    cexState2.current = cexState1.current := by
  have hden : DenoiseProcessor.trimesh_denoise_fallback trivGeo cexMeshA = .ok cexMeshA := by
    have hall : cexMeshA.faces.all (fun f => faceCrossSq cexMeshA f > degenEpsSqCross)
        = true := by
      simp only [cexMeshA, List.all_cons, List.all_nil, Bool.and_true, decide_eq_true_eq]
      norm_num [faceCrossSq, cross, vsub, vadd, vneg, normSq, Mesh.vertexAt, degenEpsSqCross]
    unfold DenoiseProcessor.trimesh_denoise_fallback
    simp only [trivGeo, Bool.false_eq_true, if_false, hall, if_true]
  have hdec : DecimateProcessor.process false trivGeo cexStepDecim cexMesh6
      = .ok (cexMeshA, mkMetrics cexMesh6 cexMeshA) := rfl
  have hdenP : DenoiseProcessor.process false trivGeo cexStepDenoise cexMeshA
      = .ok (cexMeshA, mkMetrics cexMeshA cexMeshA) := by
    simp only [DenoiseProcessor.process, Bool.false_eq_true, if_false, hden]
  have hba : (DenoiseProcessor.get_cache_key cexStepDenoise cexMeshA
      = DecimateProcessor.get_cache_key cexStepDecim cexMesh6) = False := by decide
  have hac : (DecimateProcessor.get_cache_key cexStepDecim cexMesh6
      = DenoiseProcessor.get_cache_key cexStepDenoise cexMesh6) = False := by decide
  have hbc : (DenoiseProcessor.get_cache_key cexStepDenoise cexMeshA
      = DenoiseProcessor.get_cache_key cexStepDenoise cexMesh6) = False := by decide
  have httl : ((0:ℚ) - 0 > ((24:ℕ):ℚ) * 3600) = False := by norm_num
  have httl2 : ¬ ((24:ℚ) * 3600 < 0) := by norm_num
  have e1 : cexStepDecim.enabled = true := rfl
  have e2 : cexStepDecim.step = .decimate := rfl
  have e3 : cexStepDecim.cache_enabled = true := rfl
  have e4 : cexStepDenoise.enabled = true := rfl
  have e5 : cexStepDenoise.step = .denoise := rfl
  have e6 : cexStepDenoise.cache_enabled = true := rfl
  refine ⟨rfl, ?_, ?_, ?_, ?_, ?_, ?_, ?_, ?_⟩ <;>
    simp [cexState2, cexRun2, cexState1, cexRun1, PreprocessingPipeline.process, cexPipeline,
      runSteps, runStep, initialize_processor, PipelineCache.init, PipelineCache.get,
      PipelineCache.put, PipelineStep.value, CacheEntry.update_access,
      e1, e2, e3, e4, e5, e6,
      hdec, hdenP, hba, hac, hbc, httl, httl2, exceptOk]
